import Mathlib

/-!
Shallow embedding of the CSV ingestion-and-profiling engine of the
`python-api` service: the universal CSV extractor
(`services/extractor.py`), the data analyzer (`services/analyzer.py`)
and the quality checker (`services/quality.py`), together with proofs
of the properties the design document states for them.

Conventions of the embedding:
* pandas/Python floats are modelled as rationals (`ℚ`); IEEE specials
  (NaN/inf) are modelled by `Option`/`Cell.missing` where they arise
  from coercion, and a modelling note is left where Python could
  produce a genuine `inf` value.
* Python exceptions are modelled with `Except String`; a function that
  cannot raise is pure.
* external libraries (chardet, `bytes.decode`, `pd.to_datetime`) are
  modelled as explicit parameters, so every theorem quantifies over
  their possible behaviours.
-/

set_option maxRecDepth 100000

namespace VA

/-! ## String helpers modelling Python primitives -/

/-- Boolean prefix test on character lists. -/
def listIsPre : List Char → List Char → Bool
  | [], _ => true
  | _ :: _, [] => false
  | a :: as, b :: bs => a == b && listIsPre as bs

/-- Boolean substring search on character lists. -/
def listSub (needle : List Char) : List Char → Bool
  | [] => listIsPre needle []
  | c :: cs => listIsPre needle (c :: cs) || listSub needle cs

/-- Python `needle in hay` on strings. -/
def strContains (hay needle : String) : Bool := listSub needle.data hay.data

/-- Python `str.lower()` (ASCII letters). -/
def strLower (s : String) : String := ⟨s.data.map Char.toLower⟩

/-- Replace every non-overlapping occurrence of `pat`, scanning left to
right (Python `str.replace`); the fuel argument is the input length,
enough because each step consumes at least one character. -/
def replaceAllAux (pat rep : List Char) : ℕ → List Char → List Char
  | 0, l => l
  | _ + 1, [] => []
  | fuel + 1, c :: cs =>
    if listIsPre pat (c :: cs) && !pat.isEmpty then
      rep ++ replaceAllAux pat rep fuel ((c :: cs).drop pat.length)
    else c :: replaceAllAux pat rep fuel cs

/-- Python `s.replace(pat, rep)` (all occurrences). -/
def strReplace (s pat rep : String) : String :=
  ⟨replaceAllAux pat.data rep.data s.data.length s.data⟩

/-- Python whitespace test used by `str.strip()` / `float()`. -/
def isPyWs (c : Char) : Bool :=
  c == ' ' || c == '\t' || c == '\n' || c == '\r' || c == '\x0b' || c == '\x0c'

/-- Python `s.strip()`. -/
def strTrim (s : String) : String :=
  ⟨(((s.data.dropWhile isPyWs).reverse.dropWhile isPyWs).reverse)⟩

/-- Python `any(k in hay for k in kws)`. -/
def containsAnyKw (hay : String) (kws : List String) : Bool :=
  kws.any (fun k => strContains hay k)

/-- Decimal value of a digit list, most significant digit first. -/
def digitsValAux (acc : ℕ) : List Char → ℕ
  | [] => acc
  | c :: cs => digitsValAux (acc * 10 + (c.toNat - '0'.toNat)) cs

/-- Multiply a rational by a signed power of ten (decimal exponent). -/
def applyExp (q : ℚ) (e : ℤ) : ℚ :=
  if 0 ≤ e then q * 10 ^ e.toNat else q / 10 ^ (-e).toNat

/-- Parse an optional decimal exponent suffix `e±ddd`, requiring the
remainder of the input to be empty. -/
def parseExpTail : List Char → Option ℤ
  | [] => some 0
  | c :: cs =>
    if c == 'e' || c == 'E' then
      let (sgn, ds) :=
        match cs with
        | '+' :: t => ((1 : ℤ), t)
        | '-' :: t => ((-1 : ℤ), t)
        | t => ((1 : ℤ), t)
      if ds ≠ [] ∧ ds.all Char.isDigit then some (sgn * (digitsValAux 0 ds : ℤ)) else none
    else none

/-- The finite-number grammar of Python `float` (and of pandas
`to_numeric` on a string): optional sign, then digits with an optional
fractional part or a bare fractional part, then an optional exponent.
(Python additionally allows underscores between digits; no source
string here uses them.) -/
def pyFloatCore (cs0 : List Char) : Option ℚ :=
  let (sgn, cs) :=
    match cs0 with
    | '+' :: t => ((1 : ℚ), t)
    | '-' :: t => ((-1 : ℚ), t)
    | t => ((1 : ℚ), t)
  let p1 := cs.span Char.isDigit
  match p1.2 with
  | '.' :: r2 =>
    let p2 := r2.span Char.isDigit
    if p1.1 = [] ∧ p2.1 = [] then none
    else
      match parseExpTail p2.2 with
      | some e =>
        some (applyExp (sgn * ((digitsValAux 0 p1.1 : ℚ) +
          (digitsValAux 0 p2.1 : ℚ) / 10 ^ p2.1.length)) e)
      | none => none
  | _ =>
    if p1.1 = [] then none
    else
      match parseExpTail p1.2 with
      | some e => some (applyExp (sgn * (digitsValAux 0 p1.1 : ℚ)) e)
      | none => none

/-- Python `float(s)` success test: the finite grammar above plus the
words `inf`, `infinity` and `nan` (case-insensitive, optional sign),
with surrounding whitespace stripped. -/
def pyFloatOk (s : String) : Bool :=
  let t := (strLower (strTrim s)).data
  let t2 :=
    match t with
    | '+' :: r => r
    | '-' :: r => r
    | r => r
  t2 == "inf".data || t2 == "infinity".data || t2 == "nan".data ||
    (pyFloatCore (strTrim s).data).isSome

/-- pandas `pd.to_numeric(_, errors='coerce')` on one string cell:
finite numeric literals parse, everything else — including `"nan"` and
the IEEE specials, which stay outside the rational model — coerces to
a missing value. -/
def pdToNumeric (s : String) : Option ℚ := pyFloatCore (strTrim s).data

/-- Zero-left-pad a digit string to length `k`. -/
def padZeros (s : String) (k : ℕ) : String :=
  if s.length < k then String.mk (List.replicate (k - s.length) '0') ++ s else s

/-- Decimal rendering of a rational whose denominator divides a power
of ten; models Python `str()` on the floats that arise from parsing
decimal data (integral values render with a trailing `.0`, as Python
floats do). -/
def decimalStr (q : ℚ) : String :=
  let sgn := if q < 0 then "-" else ""
  let k := ((List.range 31).find? (fun k => decide (q.den ∣ 10 ^ k))).getD 0
  let m := q.num.natAbs * 10 ^ k / q.den
  if k = 0 then sgn ++ toString m ++ ".0"
  else sgn ++ toString (m / 10 ^ k) ++ "." ++ padZeros (toString (m % 10 ^ k)) k

/-! ## The data model: cells, columns, tables -/

/-- One table cell.  pandas NaN/None is `missing`; a missing cell is
distinct from the empty string. -/
inductive Cell where
  | missing
  | str (s : String)
  | num (q : ℚ)
  | boolean (b : Bool)
  | dt (d : ℤ)
deriving DecidableEq

/-- Python `str()` of a cell, as pandas `astype(str)` renders it.
Non-decimal rationals cannot occur from parsed decimal data; dates are
rendered by their day number (their text is never inspected by the
verified properties). -/
def Cell.pyStr : Cell → String
  | .missing => "nan"
  | .str s => s
  | .num q => decimalStr q
  | .boolean b => if b then "True" else "False"
  | .dt d => toString d

def Cell.isMissing : Cell → Bool
  | .missing => true
  | _ => false

/-- pandas column dtype, as far as the sources inspect it. -/
inductive DType where
  | object
  | float64
  | int64
  | datetime
deriving DecidableEq

structure Column where
  name : String
  dtype : DType
  cells : List Cell
deriving DecidableEq

/-- A pandas DataFrame: named columns aligned by row index. -/
structure Table where
  nrows : ℕ
  cols : List Column
deriving DecidableEq

/-- pandas `df.empty`: some axis has length zero. -/
def Table.isEmptyTable (t : Table) : Bool := t.nrows == 0 || t.cols.isEmpty

def Table.ncols (t : Table) : ℕ := t.cols.length

/-- Non-missing values of a column in row order (pandas `dropna()`). -/
def nonMissing (cells : List Cell) : List Cell :=
  cells.filter (fun c => !c.isMissing)

def countMissing (cells : List Cell) : ℕ :=
  (cells.filter (fun c => c.isMissing)).length

/-- pandas `Series.nunique()` on an already `dropna`-ed sample. -/
def nunique (cells : List Cell) : ℕ := cells.dedup.length

def colLower (c : Column) : String := strLower c.name

/-- `astype(str)` of a full column, in row order (missing renders as
`"nan"`, as pandas does for float NaN). -/
def colStrs (c : Column) : List String := c.cells.map Cell.pyStr

/-! ## Type inference of the universal CSV extractor
(`extractor.py`, `_auto_detect_and_convert_types` and its helpers) -/

/-- `_is_percentage_column`: share of sampled values whose lowercase
text matches the regex `%|percent|pct` exceeds one half. -/
def isPercentageColumn (sample : List Cell) : Bool :=
  let lows := sample.map (fun c => strLower c.pyStr)
  let cnt := (lows.filter
    (fun s => strContains s "%" || strContains s "percent" || strContains s "pct")).length
  decide ((cnt : ℚ) / (sample.length : ℚ) > 1 / 2)

/-- The alternatives of the regex `[$€£¥]|USD|EUR|CHF|GBP`, lowered
because the source matches with `case=False`. -/
def currencyMarks : List String := ["$", "€", "£", "¥", "usd", "eur", "chf", "gbp"]

/-- `_is_currency_column`: share of sampled values containing a
currency mark exceeds 0.3.  The column NAME is not consulted. -/
def isCurrencyColumn (sample : List Cell) : Bool :=
  let cnt := (sample.filter (fun c => containsAnyKw (strLower c.pyStr) currencyMarks)).length
  decide ((cnt : ℚ) / (sample.length : ℚ) > 3 / 10)

/-- The cleaning applied by `_is_numeric_column` before probing with
`float()`: drop commas, spaces and the two common currency signs. -/
def cleanNumericProbe (s : String) : String :=
  strReplace (strReplace (strReplace (strReplace s "," "") " " "") "€" "") "$" ""

/-- `_is_numeric_column`: share of the first `min(100, n)` sampled
values that parse as floats after cleaning exceeds 0.8. -/
def isNumericColumn (sample : List Cell) : Bool :=
  let probe := sample.take (min 100 sample.length)
  let cnt := (probe.filter (fun c => pyFloatOk (cleanNumericProbe c.pyStr))).length
  decide ((cnt : ℚ) / ((min 100 sample.length : ℕ) : ℚ) > 8 / 10)

/-- Consume exactly `n` decimal digits at the head of the input. -/
def chompDigits : ℕ → List Char → Option (List Char)
  | 0, cs => some cs
  | _ + 1, [] => none
  | n + 1, c :: cs => if c.isDigit then chompDigits n cs else none

/-- Does `p` hold at some position (suffix) of the input?  Models an
unanchored regex search. -/
def anyPos (p : List Char → Bool) : List Char → Bool
  | [] => p []
  | c :: cs => p (c :: cs) || anyPos p cs

/-- One date-shape regex `\d{a} s1 \d{b} s2 \d{c}` tested at the head. -/
def dateShapeAtHead (a : ℕ) (s1 : Char) (b : ℕ) (s2 : Char) (c : ℕ)
    (cs : List Char) : Bool :=
  match chompDigits a cs with
  | none => false
  | some r1 =>
    match r1 with
    | [] => false
    | x :: r2 =>
      x == s1 &&
        (match chompDigits b r2 with
         | none => false
         | some r3 =>
           match r3 with
           | [] => false
           | y :: r4 => y == s2 && (chompDigits c r4).isSome)

/-- Unanchored search for a date-shape regex. -/
def matchesDateShape (a : ℕ) (s1 : Char) (b : ℕ) (s2 : Char) (c : ℕ)
    (s : String) : Bool :=
  anyPos (dateShapeAtHead a s1 b s2 c) s.data

/-- The four `date_patterns` regexes of the extractor. -/
def datePatternMatchers : List (String → Bool) :=
  [ matchesDateShape 4 '-' 2 '-' 2,
    matchesDateShape 2 '/' 2 '/' 4,
    matchesDateShape 2 '.' 2 '.' 4,
    matchesDateShape 2 '-' 2 '-' 4 ]

/-- `_is_date_column`: the per-pattern match counts are summed (a value
matching two patterns counts twice, as in the source) and compared with
0.7 of the sample size. -/
def isDateColumn (sample : List Cell) : Bool :=
  let strs := sample.map Cell.pyStr
  let cnt := (datePatternMatchers.map (fun m => (strs.filter m).length)).sum
  decide ((cnt : ℚ) / (sample.length : ℚ) > 7 / 10)

/-- The truthy/falsy vocabulary of `_is_boolean_column`. -/
def boolVocab : List String :=
  ["true", "false", "1", "0", "yes", "no", "y", "n", "oui", "non"]

/-- `_is_boolean_column`: share of lowered sampled values inside the
vocabulary exceeds 0.8. -/
def isBooleanColumn (sample : List Cell) : Bool :=
  let cnt := (sample.filter (fun c => boolVocab.contains (strLower c.pyStr))).length
  decide ((cnt : ℚ) / (sample.length : ℚ) > 8 / 10)

/-- regex `[A-Z]{2,}\d+` searched anywhere reduces to the presence of
two consecutive uppercase letters followed by a digit. -/
def hasUpperUpperDigit (s : String) : Bool :=
  anyPos (fun cs =>
    match cs with
    | a :: b :: c :: _ => a.isUpper && b.isUpper && c.isDigit
    | _ => false) s.data

/-- regex `\d+[A-Z]+` searched anywhere reduces to a digit directly
followed by an uppercase letter. -/
def hasDigitUpper (s : String) : Bool :=
  anyPos (fun cs =>
    match cs with
    | a :: b :: _ => a.isDigit && b.isUpper
    | _ => false) s.data

/-- `n` consecutive digits somewhere in the string (regex `\d{n,}`). -/
def hasDigitRun (n : ℕ) (s : String) : Bool :=
  anyPos (fun cs => (chompDigits n cs).isSome) s.data

/-- After skipping one or more digits, the next character is uppercase. -/
def afterDigitsUpper : List Char → Bool
  | [] => false
  | c :: cs => if c.isDigit then afterDigitsUpper cs else c.isUpper

/-- regex `[A-Z]+\d+[A-Z]+` tested at the head: an uppercase letter,
one or more digits, then an uppercase letter. -/
def upperDigitsUpperAtHead : List Char → Bool
  | a :: c :: cs => a.isUpper && c.isDigit && afterDigitsUpper (c :: cs)
  | _ => false

/-- `_is_identifier_column`: uniqueness above 0.9, or at least two of
the four id-shaped regexes match somewhere in the sample. -/
def isIdentifierColumn (sample : List Cell) : Bool :=
  let strs := sample.map Cell.pyStr
  let patCount :=
    (if strs.any (hasDigitRun 3) then 1 else 0) +
    (if strs.any hasUpperUpperDigit then 1 else 0) +
    (if strs.any hasDigitUpper then 1 else 0) +
    (if strs.any (fun s => anyPos upperDigitsUpperAtHead s.data) then 1 else 0)
  decide ((nunique sample : ℚ) / (sample.length : ℚ) > 9 / 10) || decide (patCount ≥ 2)

/-- `_is_category_column`: unique ratio below 0.5 and fewer than 50
distinct values. -/
def isCategoryColumn (sample : List Cell) : Bool :=
  decide ((nunique sample : ℚ) / (sample.length : ℚ) < 1 / 2) &&
    decide (nunique sample < 50)

/-- `_convert_currency_to_numeric` cleaning: the regex `[$€£¥,]` and
then spaces are removed before the per-cell numeric coercion. -/
def cleanCurrency (s : String) : String :=
  strReplace (strReplace (strReplace (strReplace (strReplace (strReplace s "$" "")
    "€" "") "£" "") "¥" "") "," "") " " ""

/-- One cell of `_convert_currency_to_numeric` (`astype(str)` first, so
a missing cell goes through `"nan"` and coerces back to missing). -/
def convertCurrencyCell (c : Cell) : Cell :=
  match pdToNumeric (cleanCurrency c.pyStr) with
  | some q => .num q
  | none => .missing

/-- One cell of `pd.to_numeric(df[col], errors='coerce')`: note that NO
cleaning is applied here, unlike in the detector. -/
def convertNumericCell (c : Cell) : Cell :=
  match c with
  | .missing => .missing
  | c =>
    match pdToNumeric c.pyStr with
    | some q => .num q
    | none => .missing

/-- One cell of the boolean conversion
`df[col].map({'True': True, 'False': False, '1': True, '0': False})`:
any value outside the four exact keys maps to NaN. -/
def convertBooleanCell (c : Cell) : Cell :=
  match c with
  | .str "True" => .boolean true
  | .str "False" => .boolean false
  | .str "1" => .boolean true
  | .str "0" => .boolean false
  | _ => .missing

/-- One cell of `pd.to_datetime(df[col], errors='coerce')`; the
external parser is the parameter `toDT`. -/
def convertDatetimeCell (toDT : String → Option ℤ) (c : Cell) : Cell :=
  match c with
  | .missing => .missing
  | c =>
    match toDT c.pyStr with
    | some d => .dt d
    | none => .missing

/-- The per-column record built by `_auto_detect_and_convert_types`. -/
structure TypeInfo where
  original_type : String
  detected_type : String
  conversion_success : Bool
  special_format : Option String
deriving DecidableEq

/-- Per-column body of `_auto_detect_and_convert_types`.  `toDT` models
pd.to_datetime.  The branches are tried in the source order:
percentage, currency, numeric, datetime, boolean, default string; the
column NAME is not consulted by any branch, and a percentage column is
deliberately left unconverted (« Garder en string »). -/
def autoDetectAndConvertColumn (toDT : String → Option ℤ) (c : Column) :
    Column × TypeInfo :=
  let base : TypeInfo := ⟨"string", "string", false, none⟩
  let sample := nonMissing c.cells
  if sample.isEmpty then (c, base)
  else if isPercentageColumn sample then
    (c, { base with detected_type := "percentage", special_format := some "percentage" })
  else if isCurrencyColumn sample then
    ({ c with dtype := .float64, cells := c.cells.map convertCurrencyCell },
     { base with detected_type := "currency", conversion_success := true,
                 special_format := some "currency" })
  else if isNumericColumn sample then
    ({ c with dtype := .float64, cells := c.cells.map convertNumericCell },
     { base with detected_type := "numeric", conversion_success := true })
  else if isDateColumn sample then
    ({ c with dtype := .datetime, cells := c.cells.map (convertDatetimeCell toDT) },
     { base with detected_type := "datetime", conversion_success := true })
  else if isBooleanColumn sample then
    ({ c with cells := c.cells.map convertBooleanCell },
     { base with detected_type := "boolean", conversion_success := true })
  else
    (c, { base with
            detected_type := "string",
            special_format :=
              if isIdentifierColumn sample then some "identifier"
              else if isCategoryColumn sample then some "category" else none })

/-- `_auto_detect_and_convert_types` over a whole table. -/
def autoDetectAndConvertTypes (toDT : String → Option ℤ) (t : Table) :
    Table × List (String × TypeInfo) :=
  (⟨t.nrows, t.cols.map (fun c => (autoDetectAndConvertColumn toDT c).1)⟩,
   t.cols.map (fun c => (c.name, (autoDetectAndConvertColumn toDT c).2)))

/-! ## Missing-value handling (`_handle_missing_values_smart`) -/

/-- The identifier keywords of the missing-value handler. -/
def idFillKeywords : List String :=
  ["id", "branch", "agent", "code", "ref", "name", "entity"]

/-- Replace the missing cells of a column by `Inconnu_<col>_<i>` with
`i` counting the missing cells in row order from zero, as the source
comprehension `[f"Inconnu_(col)_(i)" for i in range(mask.sum())]`
assigns them. -/
def fillInconnu (colName : String) : ℕ → List Cell → List Cell
  | _, [] => []
  | i, .missing :: rest =>
    .str ("Inconnu_" ++ colName ++ "_" ++ toString i) :: fillInconnu colName (i + 1) rest
  | i, x :: rest => x :: fillInconnu colName i rest

/-- Per-column body of `_handle_missing_values_smart`.  Note that the
keyword branch fires on the NAME alone, before the dtype is looked at,
so a numeric column with an identifier-like name also receives string
fills. -/
def handleMissingColumn (nrows : ℕ) (c : Column) : Column :=
  let missing := countMissing c.cells
  if (missing : ℚ) / (nrows : ℚ) > 9 / 10 then c
  else if containsAnyKw (strLower c.name) idFillKeywords then
    { c with cells := fillInconnu c.name 0 c.cells }
  else if c.dtype = .float64 ∨ c.dtype = .int64 then c
  else if c.dtype = .object then
    { c with cells := c.cells.map (fun x => if x = .missing then .str "Non spécifié" else x) }
  else c

/-- `_handle_missing_values_smart` over a whole table. -/
def handleMissingValuesSmart (t : Table) : Table :=
  ⟨t.nrows, t.cols.map (handleMissingColumn t.nrows)⟩

/-! ## Concrete fixtures for the type-inference claims -/

/-- A trivial external date parser (never parses); the date branch is
not reached by any fixture below. -/
def toDT0 : String → Option ℤ := fun _ => none

/-- The percentage fixture column of the design document. -/
def pctCol : Column := ⟨"c1", .object, [.str "10%", .str "25%", .str "5%"]⟩

/-- The currency fixture column of the design document. -/
def revCol : Column :=
  ⟨"Revenue", .object, [.str "1,234.50", .str "998.00", .str "0.00"]⟩

/-- A column whose NAME carries identifier keywords but whose VALUES
are percentages. -/
def idPctCol : Column :=
  ⟨"employee id", .object, [.str "10%", .str "20%", .str "30%"]⟩

/-! ## C2 — percentage canonical conversion -/

/-- C2 (counterexample): the column `["10%","25%","5%"]` IS classified
`percentage`, but the extractor keeps the cells as the original strings
with `conversion_success = false`; the canonical values are NOT the
unit-interval fractions `[0.10, 0.25, 0.05]` the claim states — no
division by 100 happens anywhere in the pipeline. -/
theorem claim_C2_counterexample :
    (autoDetectAndConvertColumn toDT0 pctCol).2.detected_type = "percentage" ∧
    (autoDetectAndConvertColumn toDT0 pctCol).2.conversion_success = false ∧
    (autoDetectAndConvertColumn toDT0 pctCol).1.cells =
      [.str "10%", .str "25%", .str "5%"] ∧
    (autoDetectAndConvertColumn toDT0 pctCol).1.cells ≠
      [.num (1 / 10), .num (1 / 4), .num (1 / 20)] := by with_unfolding_all decide

/-- C2 (amended): a column detected as percentage (more than half of
its non-missing values carry a `%`/`percent`/`pct` mark) is tagged
`percentage` / `special_format = percentage` but is deliberately NOT
converted: the column is returned unchanged and
`conversion_success = false`. -/
theorem autoDetect_percentage_keeps_strings (toDT : String → Option ℤ) (c : Column)
    (hne : (nonMissing c.cells).isEmpty = false)
    (hp : isPercentageColumn (nonMissing c.cells) = true) :
    (autoDetectAndConvertColumn toDT c).1 = c ∧
    (autoDetectAndConvertColumn toDT c).2 =
      { original_type := "string", detected_type := "percentage",
        conversion_success := false, special_format := some "percentage" } := by
  simp [autoDetectAndConvertColumn, hne, hp]

/-- C2 (witness): the amended theorem applied to the fixture column. -/
theorem autoDetect_percentage_keeps_strings_witness :
    (autoDetectAndConvertColumn toDT0 pctCol).1 = pctCol ∧
    (autoDetectAndConvertColumn toDT0 pctCol).2 =
      { original_type := "string", detected_type := "percentage",
        conversion_success := false, special_format := some "percentage" } :=
  autoDetect_percentage_keeps_strings toDT0 pctCol (by with_unfolding_all decide) (by with_unfolding_all decide)

/-! ## C5 — the `"Revenue"` column and currency conversion -/

/-- C5 (counterexample): the column `["1,234.50","998.00","0.00"]`
named `"Revenue"` is NOT classified currency (the detector looks only
at the values, never at the name, and none of the values carries a
currency mark); it is classified `numeric`, and the conversion applies
`pd.to_numeric` WITHOUT stripping the thousands separator, so
`"1,234.50"` coerces to missing instead of `1234.5`. -/
theorem claim_C5_counterexample :
    (autoDetectAndConvertColumn toDT0 revCol).2.detected_type = "numeric" ∧
    (autoDetectAndConvertColumn toDT0 revCol).2.detected_type ≠ "currency" ∧
    (autoDetectAndConvertColumn toDT0 revCol).1.cells =
      [.missing, .num 998, .num 0] ∧
    (autoDetectAndConvertColumn toDT0 revCol).1.cells ≠
      [.num (2469 / 2), .num 998, .num 0] := by with_unfolding_all decide

/-- C5 (amended): type inference never consults the column name or
dtype — detection and converted cells depend on the cell values alone —
and on the fixture values the result is `numeric` with converted cells
`[missing, 998.0, 0.0]` (the comma-bearing value is coerced to
missing because `pd.to_numeric` receives the raw strings). -/
theorem autoDetect_ignores_name (toDT : String → Option ℤ)
    (n1 n2 : String) (d1 d2 : DType) (cells : List Cell) :
    ((autoDetectAndConvertColumn toDT ⟨n1, d1, cells⟩).2 =
       (autoDetectAndConvertColumn toDT ⟨n2, d2, cells⟩).2 ∧
     (autoDetectAndConvertColumn toDT ⟨n1, d1, cells⟩).1.cells =
       (autoDetectAndConvertColumn toDT ⟨n2, d2, cells⟩).1.cells) ∧
    (autoDetectAndConvertColumn toDT0 revCol).2.detected_type = "numeric" ∧
    (autoDetectAndConvertColumn toDT0 revCol).1.cells =
      [.missing, .num 998, .num 0] := by
  refine ⟨?_, by with_unfolding_all decide, by with_unfolding_all decide⟩
  by_cases h0 : (nonMissing cells).isEmpty = true
  · simp [autoDetectAndConvertColumn, h0]
  · by_cases h1 : isPercentageColumn (nonMissing cells) = true
    · simp [autoDetectAndConvertColumn, h0, h1]
    · by_cases h2 : isCurrencyColumn (nonMissing cells) = true
      · simp [autoDetectAndConvertColumn, h0, h1, h2]
      · by_cases h3 : isNumericColumn (nonMissing cells) = true
        · simp [autoDetectAndConvertColumn, h0, h1, h2, h3]
        · by_cases h4 : isDateColumn (nonMissing cells) = true
          · simp [autoDetectAndConvertColumn, h0, h1, h2, h3, h4]
          · by_cases h5 : isBooleanColumn (nonMissing cells) = true
            · simp [autoDetectAndConvertColumn, h0, h1, h2, h3, h4, h5]
            · simp [autoDetectAndConvertColumn, h0, h1, h2, h3, h4, h5]

/-! ## C6 — classification precedence -/

/-- C6 (counterexample): a column named `"employee id"` (an identifier
keyword in the name) whose values look like percentages is classified
`percentage`, not `identifier`: no identifier rule is tried before the
value-based rules, and the name is never consulted. -/
theorem claim_C6_counterexample :
    (autoDetectAndConvertColumn toDT0 idPctCol).2.detected_type = "percentage" ∧
    (autoDetectAndConvertColumn toDT0 idPctCol).2.detected_type ≠ "identifier" ∧
    (autoDetectAndConvertColumn toDT0 idPctCol).2.special_format ≠ some "identifier" := by
  with_unfolding_all decide

/-- The classification order actually implemented: first matching
value-based detector wins, in the order percentage, currency, numeric,
datetime, boolean; otherwise the column stays a string. -/
def specFirstMatch (sample : List Cell) : String :=
  if isPercentageColumn sample then "percentage"
  else if isCurrencyColumn sample then "currency"
  else if isNumericColumn sample then "numeric"
  else if isDateColumn sample then "datetime"
  else if isBooleanColumn sample then "boolean"
  else "string"

/-- C6 (amended): for a column with at least one non-missing value the
detected type is the FIRST matching rule in the order percentage,
currency, numeric, datetime, boolean, default string — identifier and
category are only `special_format` tags of the default string branch —
and the identifier tag can only appear on a `string`-typed column. -/
theorem autoDetect_first_match_precedence (toDT : String → Option ℤ) (c : Column)
    (hne : (nonMissing c.cells).isEmpty = false) :
    (autoDetectAndConvertColumn toDT c).2.detected_type =
      specFirstMatch (nonMissing c.cells) ∧
    ((autoDetectAndConvertColumn toDT c).2.special_format = some "identifier" →
      (autoDetectAndConvertColumn toDT c).2.detected_type = "string") := by
  by_cases h1 : isPercentageColumn (nonMissing c.cells) = true
  · simp [autoDetectAndConvertColumn, specFirstMatch, hne, h1]
  · by_cases h2 : isCurrencyColumn (nonMissing c.cells) = true
    · simp [autoDetectAndConvertColumn, specFirstMatch, hne, h1, h2]
    · by_cases h3 : isNumericColumn (nonMissing c.cells) = true
      · simp [autoDetectAndConvertColumn, specFirstMatch, hne, h1, h2, h3]
      · by_cases h4 : isDateColumn (nonMissing c.cells) = true
        · simp [autoDetectAndConvertColumn, specFirstMatch, hne, h1, h2, h3, h4]
        · by_cases h5 : isBooleanColumn (nonMissing c.cells) = true
          · simp [autoDetectAndConvertColumn, specFirstMatch, hne, h1, h2, h3, h4, h5]
          · simp [autoDetectAndConvertColumn, specFirstMatch, hne, h1, h2, h3, h4, h5]

/-- C6 (witness): the amended precedence theorem at the fixture with an
identifier-keyword name and percentage values. -/
theorem autoDetect_first_match_precedence_witness :
    (autoDetectAndConvertColumn toDT0 idPctCol).2.detected_type =
      specFirstMatch (nonMissing idPctCol.cells) ∧
    ((autoDetectAndConvertColumn toDT0 idPctCol).2.special_format = some "identifier" →
      (autoDetectAndConvertColumn toDT0 idPctCol).2.detected_type = "string") :=
  autoDetect_first_match_precedence toDT0 idPctCol (by with_unfolding_all decide)

/-! ## C10 — missing-value handling -/

/-- A numeric column whose name contains the identifier keyword
`code`, with one missing value. -/
def numKwCol : Column := ⟨"code", .float64, [.num 1, .missing]⟩

/-- C10 (counterexample): the claim says numeric columns keep their
missing values, but a float64 column named `"code"` (identifier
keyword) with 50% missing gets the string fill `Inconnu_code_0` — the
keyword branch fires on the name before the dtype is consulted. -/
theorem claim_C10_counterexample :
    (handleMissingValuesSmart ⟨2, [numKwCol]⟩).cols =
      [⟨"code", .float64, [.num 1, .str "Inconnu_code_0"]⟩] ∧
    (handleMissingColumn 2 numKwCol).cells ≠ numKwCol.cells ∧
    countMissing (handleMissingColumn 2 numKwCol).cells = 0 := by with_unfolding_all decide

/-- Filling with `Inconnu` placeholders leaves no missing cell. -/
theorem countMissing_fillInconnu (colName : String) (i : ℕ) (cells : List Cell) :
    countMissing (fillInconnu colName i cells) = 0 := by
  induction cells generalizing i with
  | nil => rfl
  | cons x rest ih =>
    cases x <;>
      simp [fillInconnu, countMissing, List.filter_cons, Cell.isMissing] at * <;>
      exact ih _

/-- Filling with `Non spécifié` leaves no missing cell. -/
theorem countMissing_fillNonSpec (cells : List Cell) :
    countMissing (cells.map
      (fun x => if x = .missing then .str "Non spécifié" else x)) = 0 := by
  induction cells with
  | nil => rfl
  | cons x rest ih =>
    cases x <;>
      simp [countMissing, List.filter_cons, Cell.isMissing] at * <;>
      exact ih

/-- C10 (amended): per column of the handled table — a column with more
than 90% missing values is left unchanged; otherwise a column whose
name contains an identifier keyword (id/branch/agent/code/ref/name/
entity) — whatever its dtype — has each missing cell replaced by the
row-indexed `Inconnu_<column>_<i>` placeholder (so no missing cell
remains); a numeric column WITHOUT such a keyword keeps its missing
values unchanged; and any other object column has its missing cells
replaced by `Non spécifié` (so no missing cell remains). -/
theorem handleMissingValuesSmart_spec (t : Table) :
    (handleMissingValuesSmart t).cols = t.cols.map (handleMissingColumn t.nrows) ∧
    ∀ c : Column,
      ((countMissing c.cells : ℚ) / (t.nrows : ℚ) > 9 / 10 →
        handleMissingColumn t.nrows c = c) ∧
      (¬ ((countMissing c.cells : ℚ) / (t.nrows : ℚ) > 9 / 10) →
        (containsAnyKw (strLower c.name) idFillKeywords = true →
          (handleMissingColumn t.nrows c).cells = fillInconnu c.name 0 c.cells ∧
          countMissing (handleMissingColumn t.nrows c).cells = 0) ∧
        (containsAnyKw (strLower c.name) idFillKeywords = false →
          ((c.dtype = .float64 ∨ c.dtype = .int64) →
            handleMissingColumn t.nrows c = c) ∧
          (c.dtype = .object →
            (handleMissingColumn t.nrows c).cells = c.cells.map
              (fun x => if x = .missing then .str "Non spécifié" else x) ∧
            countMissing (handleMissingColumn t.nrows c).cells = 0))) := by
  refine ⟨rfl, fun c => ⟨fun hr => ?_, fun hr => ⟨fun hk => ?_, fun hk => ⟨fun hd => ?_, fun hd => ?_⟩⟩⟩⟩
  · simp [handleMissingColumn, hr]
  · simp [handleMissingColumn, hr, hk, countMissing_fillInconnu]
  · simp [handleMissingColumn, hr, hk, hd]
  · have hnum : ¬ (c.dtype = .float64 ∨ c.dtype = .int64) := by
      rw [hd]; rintro (h | h) <;> cases h
    simp [handleMissingColumn, hr, hk, hnum, hd, countMissing_fillNonSpec]

/-- C10 (witness): the amended theorem applied to an object column
named `"note"` (no keyword) with one missing value and 50% missing. -/
theorem handleMissingValuesSmart_spec_witness :
    (handleMissingColumn 2 ⟨"note", .object, [.str "a", .missing]⟩).cells =
      ([.str "a", .missing] : List Cell).map
        (fun x => if x = .missing then .str "Non spécifié" else x) ∧
    countMissing (handleMissingColumn 2 ⟨"note", .object, [.str "a", .missing]⟩).cells = 0 :=
  ((((handleMissingValuesSmart_spec ⟨2, [⟨"note", .object, [.str "a", .missing]⟩]⟩).2
      ⟨"note", .object, [.str "a", .missing]⟩).2 (by with_unfolding_all decide)).2 (by with_unfolding_all decide)).2 (by with_unfolding_all decide)

/-! ## C7 — IQR outlier detection (`analyzer.py`, `_detect_outliers_iqr`) -/

/-- Insert into a sorted rational list. -/
def insertSortedQ (x : ℚ) : List ℚ → List ℚ
  | [] => [x]
  | y :: ys => if x ≤ y then x :: y :: ys else y :: insertSortedQ x ys

/-- Ascending insertion sort. -/
def sortQ : List ℚ → List ℚ
  | [] => []
  | x :: xs => insertSortedQ x (sortQ xs)

/-- pandas `Series.quantile(q)` with the default linear interpolation:
with the data sorted ascending, position `h = (n-1)q`, the result
interpolates between the floor and ceiling order statistics. -/
def pdQuantile (l : List ℚ) (q : ℚ) : ℚ :=
  let s := sortQ l
  let n := s.length
  let h : ℚ := ((n : ℚ) - 1) * q
  let i := h.floor.toNat
  let lo := s.getD i 0
  let hi := s.getD (min (i + 1) (n - 1)) 0
  lo + (h - (i : ℚ)) * (hi - lo)

/-- `series.dropna()` of a numeric column, keeping the original pandas
row indices: the `(index, value)` pairs of the numeric cells. -/
def numData (cells : List Cell) : List (ℕ × ℚ) :=
  cells.enum.filterMap (fun p =>
    match p.2 with
    | .num q => some (p.1, q)
    | _ => none)

/-- `_detect_outliers_iqr`: fewer than 4 non-missing values yields no
outliers; otherwise the indices of the values strictly outside
`[Q1 - 1.5·IQR, Q3 + 1.5·IQR]`. -/
def detectOutliersIqr (cells : List Cell) : List ℕ :=
  let data := numData cells
  if data.length < 4 then []
  else
    let vals := data.map Prod.snd
    let q1 := pdQuantile vals (1 / 4)
    let q3 := pdQuantile vals (3 / 4)
    let iqr := q3 - q1
    (data.filter (fun p => decide (p.2 < q1 - 3 / 2 * iqr ∨ p.2 > q3 + 3 / 2 * iqr))).map
      Prod.fst

/-- Membership in `numData` is exactly a numeric cell at that index. -/
theorem mem_numData (cells : List Cell) (i : ℕ) (v : ℚ) :
    (i, v) ∈ numData cells ↔ cells[i]? = some (.num v) := by
  simp only [numData, List.mem_filterMap]
  constructor
  · rintro ⟨⟨j, c⟩, hm, hf⟩
    cases c <;> simp only [Option.some.injEq, Prod.mk.injEq, reduceCtorEq] at hf
    obtain ⟨rfl, rfl⟩ := hf
    exact List.mk_mem_enum_iff_getElem?.1 hm
  · intro h
    exact ⟨(i, .num v), List.mk_mem_enum_iff_getElem?.2 h, rfl⟩

/-- C7: for a numeric column with at least 4 non-missing values, an
index is flagged exactly when its value lies strictly outside
`[Q1 - 1.5·IQR, Q3 + 1.5·IQR]` with `Q1`/`Q3` the interpolated 25th and
75th percentiles and `IQR = Q3 - Q1`. -/
theorem detectOutliersIqr_spec (cells : List Cell)
    (h4 : 4 ≤ (numData cells).length) :
    ∀ i v, (i, v) ∈ numData cells →
      (i ∈ detectOutliersIqr cells ↔
        (v < pdQuantile ((numData cells).map Prod.snd) (1 / 4) -
              3 / 2 * (pdQuantile ((numData cells).map Prod.snd) (3 / 4) -
                pdQuantile ((numData cells).map Prod.snd) (1 / 4)) ∨
         v > pdQuantile ((numData cells).map Prod.snd) (3 / 4) +
              3 / 2 * (pdQuantile ((numData cells).map Prod.snd) (3 / 4) -
                pdQuantile ((numData cells).map Prod.snd) (1 / 4)))) := by
  intro i v hiv
  have hlt : ¬ (numData cells).length < 4 := by omega
  simp only [detectOutliersIqr, hlt, if_false]
  constructor
  · intro hmem
    obtain ⟨p, hp, rfl⟩ := List.mem_map.1 hmem
    have hpf := List.mem_filter.1 hp
    have hv : p.2 = v := by
      have h1 := (mem_numData cells p.1 p.2).1 hpf.1
      have h2 := (mem_numData cells p.1 v).1 hiv
      rw [h1] at h2
      simpa using h2
    rw [← hv]
    exact of_decide_eq_true hpf.2
  · intro hout
    exact List.mem_map.2 ⟨(i, v), List.mem_filter.2 ⟨hiv, decide_eq_true hout⟩, rfl⟩

/-- C7 (witness): the fixture `[1,2,3,4,100]` has `Q1 = 2`, `Q3 = 4`,
`IQR = 2`, upper bound `7`, and flags exactly the value `100` (row 4),
where the flagged index satisfies the characterisation of the main
theorem. -/
theorem detectOutliersIqr_spec_witness :
    pdQuantile [1, 2, 3, 4, 100] (1 / 4) = 2 ∧
    pdQuantile [1, 2, 3, 4, 100] (3 / 4) = 4 ∧
    pdQuantile [1, 2, 3, 4, 100] (3 / 4) +
      3 / 2 * (pdQuantile [1, 2, 3, 4, 100] (3 / 4) -
        pdQuantile [1, 2, 3, 4, 100] (1 / 4)) = 7 ∧
    detectOutliersIqr [.num 1, .num 2, .num 3, .num 4, .num 100] = [4] ∧
    (4 ∈ detectOutliersIqr [.num 1, .num 2, .num 3, .num 4, .num 100] ↔
      ((100 : ℚ) < pdQuantile ((numData [.num 1, .num 2, .num 3, .num 4, .num 100]).map
            Prod.snd) (1 / 4) -
          3 / 2 * (pdQuantile ((numData [.num 1, .num 2, .num 3, .num 4,
              .num 100]).map Prod.snd) (3 / 4) -
            pdQuantile ((numData [.num 1, .num 2, .num 3, .num 4, .num 100]).map
              Prod.snd) (1 / 4)) ∨
       (100 : ℚ) > pdQuantile ((numData [.num 1, .num 2, .num 3, .num 4,
            .num 100]).map Prod.snd) (3 / 4) +
          3 / 2 * (pdQuantile ((numData [.num 1, .num 2, .num 3, .num 4,
              .num 100]).map Prod.snd) (3 / 4) -
            pdQuantile ((numData [.num 1, .num 2, .num 3, .num 4, .num 100]).map
              Prod.snd) (1 / 4)))) :=
  ⟨by with_unfolding_all decide, by with_unfolding_all decide,
   by with_unfolding_all decide, by with_unfolding_all decide,
   detectOutliersIqr_spec [.num 1, .num 2, .num 3, .num 4, .num 100]
     (by with_unfolding_all decide) 4 100 (by with_unfolding_all decide)⟩

/-! ## C4 — business-domain classification
(`analyzer.py`, `_detect_business_domain` and the `business_domains`
catalog declared in `DataAnalyzer.__init__`) -/

/-- One domain vocabulary of the catalog. -/
structure DomainVocab where
  keywords : List String
  metrics : List String
  entities : List String
deriving DecidableEq

/-- The fixed `business_domains` catalog, in declaration order. -/
def businessDomains : List (String × DomainVocab) :=
  [("rental_car",
    ⟨["branch", "upsell", "upgrade", "proposal", "downgrade", "rental", "car",
      "vehicle", "fleet"],
     ["price", "revenue", "up", "down", "proposal"],
     ["branch", "location", "station"]⟩),
   ("sales",
    ⟨["revenue", "profit", "commission", "target", "achievement", "sales", "deal",
      "conversion"],
     ["amount", "total", "commission", "target", "achievement"],
     ["salesperson", "agent", "territory", "region"]⟩),
   ("hr",
    ⟨["employee", "department", "salary", "performance", "evaluation", "hr", "staff"],
     ["salary", "rating", "score", "bonus"],
     ["employee", "department", "manager", "team"]⟩),
   ("finance",
    ⟨["amount", "cost", "price", "budget", "expense", "financial", "accounting"],
     ["amount", "cost", "expense", "budget", "profit", "loss"],
     ["account", "center", "department"]⟩),
   ("marketing",
    ⟨["campaign", "conversion", "click", "impression", "ctr", "marketing",
      "advertising"],
     ["clicks", "impressions", "conversions", "ctr", "cpc", "cpm"],
     ["campaign", "channel", "source"]⟩),
   ("ecommerce",
    ⟨["product", "order", "customer", "purchase", "cart", "checkout", "shipping"],
     ["price", "quantity", "total", "shipping"],
     ["customer", "product", "order", "category"]⟩),
   ("logistics",
    ⟨["delivery", "shipping", "transport", "warehouse", "inventory", "stock"],
     ["quantity", "weight", "volume", "time", "cost"],
     ["warehouse", "route", "vehicle", "driver"]⟩)]

/-- One keyword loop of `_detect_business_domain`: each word of `ws`
found in the blob adds `pts` points and is appended to the matched
list. -/
def domainAcc (blob : String) (ws : List String) (pts : ℕ) (acc : ℕ × List String) :
    ℕ × List String :=
  ws.foldl (fun a k => if strContains blob k then (a.1 + pts, a.2 ++ [k]) else a) acc

/-- The three loops of `_detect_business_domain` for one domain:
keywords (+2 each), metrics (+3 each), entities (+2 each). -/
def domainScoreMatches (blob : String) (v : DomainVocab) : ℕ × List String :=
  domainAcc blob v.entities 2 (domainAcc blob v.metrics 3 (domainAcc blob v.keywords 2 (0, [])))

/-- Per-domain score record of `domain_scores`. -/
structure DomainInfo where
  score : ℕ
  matched_keywords : List String
  confidence : ℚ
deriving DecidableEq

/-- The `domain_scores` dict: catalog order restricted to the domains
with a positive score, each with `confidence = min(score/10, 1.0)`. -/
def positiveDomainScores (colNames : List String) : List (String × DomainInfo) :=
  let blob := strLower (String.intercalate " " colNames)
  businessDomains.filterMap (fun p =>
    if (domainScoreMatches blob p.2).1 > 0 then
      some (p.1, ⟨(domainScoreMatches blob p.2).1, (domainScoreMatches blob p.2).2,
        min (((domainScoreMatches blob p.2).1 : ℚ) / 10) 1⟩)
    else none)

/-- The fold of Python `max(items, key=score)`: keeps the current best
and replaces it only on a strictly greater score. -/
def pyfold (a : String × DomainInfo) (l : List (String × DomainInfo)) :
    String × DomainInfo :=
  l.foldl (fun best y => if y.2.score > best.2.score then y else best) a

/-- Python `max(items, key=score)`: returns the FIRST maximal element;
raises on an empty input (modelled by `none`, guarded in the caller). -/
def pymaxByScore : List (String × DomainInfo) → Option (String × DomainInfo)
  | [] => none
  | x :: xs => some (pyfold x xs)

/-- The result record of `_detect_business_domain` (the textual
`domain_explanation` field is elided). -/
structure DomainDetection where
  primary_domain : String
  confidence : ℚ
  matched_keywords : List String
  all_domain_scores : List (String × DomainInfo)
deriving DecidableEq

/-- `_detect_business_domain`: the `metadata` argument is unused by the
source; the primary domain is the Python `max` over the positive
scores, or `unknown` with confidence 0 when no domain scores. -/
def detectBusinessDomain (colNames : List String) : DomainDetection :=
  let ds := positiveDomainScores colNames
  match pymaxByScore ds with
  | some x => ⟨x.1, x.2.confidence, x.2.matched_keywords, ds⟩
  | none => ⟨"unknown", 0, [], ds⟩

/-- Count of the vocabulary words found in the blob. -/
def countSub (blob : String) (ws : List String) : ℕ :=
  (ws.filter (fun k => strContains blob k)).length

/-- The score accumulated by one keyword loop. -/
theorem domainAcc_score (blob : String) (ws : List String) (pts : ℕ) :
    ∀ acc : ℕ × List String,
      (domainAcc blob ws pts acc).1 = acc.1 + pts * countSub blob ws := by
  induction ws with
  | nil => intro acc; simp [domainAcc, countSub]
  | cons w t ih =>
    intro acc
    by_cases hw : strContains blob w = true
    · simp [domainAcc, countSub, List.filter_cons, hw, List.foldl_cons] at *
      rw [ih]
      simp [Nat.mul_succ, Nat.mul_add]
      omega
    · simp [domainAcc, countSub, List.filter_cons, hw, List.foldl_cons] at *
      rw [ih]

/-- The Python `max`-by-score fold returns the first maximal element:
everything before it scores strictly less, everything after at most as
much. -/
theorem pyfold_first_max (l : List (String × DomainInfo)) :
    ∀ a : String × DomainInfo,
      ∃ pre post,
        a :: l = pre ++ (pyfold a l) :: post ∧
        (∀ y ∈ pre, y.2.score < (pyfold a l).2.score) ∧
        (∀ y ∈ post, y.2.score ≤ (pyfold a l).2.score) := by
  induction l with
  | nil => exact fun a => ⟨[], [], rfl, by simp, by simp⟩
  | cons b t ih =>
    intro a
    by_cases hb : b.2.score > a.2.score
    · have hfold : pyfold a (b :: t) = pyfold b t := by
        simp [pyfold, List.foldl_cons, hb]
      obtain ⟨pre, post, heq, hpre, hpost⟩ := ih b
      rw [hfold]
      refine ⟨a :: pre, post, by simpa using congrArg (a :: ·) heq, ?_, hpost⟩
      have hbr : b.2.score ≤ (pyfold b t).2.score := by
        cases pre with
        | nil =>
          injection heq with h1 _
          exact le_of_eq (congrArg (fun z => z.2.score) h1)
        | cons p ps =>
          injection heq with h1 _
          have hp := hpre p (by simp)
          have hbp : b.2.score = p.2.score := by rw [h1]
          omega
      intro y hy
      rcases List.mem_cons.1 hy with rfl | hy
      · omega
      · exact hpre y hy
    · have hfold : pyfold a (b :: t) = pyfold a t := by
        simp [pyfold, List.foldl_cons, hb]
      obtain ⟨pre, post, heq, hpre, hpost⟩ := ih a
      rw [hfold]
      cases pre with
      | nil =>
        injection heq with h1 h2
        refine ⟨[], b :: t, by simp [← h1], by simp, ?_⟩
        intro y hy
        rcases List.mem_cons.1 hy with rfl | hy
        · rw [← h1]; omega
        · rw [h2] at hy; exact hpost y hy
      | cons p ps =>
        injection heq with h1 h2
        have har : a.2.score < (pyfold a t).2.score := by
          have := hpre p (by simp)
          rw [← h1] at this
          exact this
        refine ⟨a :: b :: ps, post, ?_, ?_, hpost⟩
        · simpa using congrArg (a :: b :: ·) h2
        · intro y hy
          rcases List.mem_cons.1 hy with rfl | hy
          · exact har
          · rcases List.mem_cons.1 hy with rfl | hy
            · omega
            · exact hpre y (by simp [hy])

/-- `pymaxByScore` returns the first maximal element of its input. -/
theorem pymax_first_max (l : List (String × DomainInfo)) (x : String × DomainInfo)
    (h : pymaxByScore l = some x) :
    ∃ pre post, l = pre ++ x :: post ∧
      (∀ y ∈ pre, y.2.score < x.2.score) ∧
      (∀ y ∈ post, y.2.score ≤ x.2.score) := by
  cases l with
  | nil => cases h
  | cons a t =>
    obtain ⟨pre, post, heq, hpre, hpost⟩ := pyfold_first_max t a
    have hx : pyfold a t = x := by
      simpa [pymaxByScore] using h
    rw [hx] at heq hpre hpost
    exact ⟨pre, post, heq, hpre, hpost⟩

/-- Every positive-score entry carries `confidence = min(score/10, 1)`
and a positive score. -/
theorem mem_positive_conf (colNames : List String) (x : String × DomainInfo)
    (hx : x ∈ positiveDomainScores colNames) :
    x.2.confidence = min ((x.2.score : ℚ) / 10) 1 ∧ 0 < x.2.score := by
  simp only [positiveDomainScores, List.mem_filterMap] at hx
  obtain ⟨p, _, hf⟩ := hx
  by_cases hs : (domainScoreMatches (strLower (String.intercalate " " colNames)) p.2).1 > 0
  · simp only [hs, if_true, Option.some.injEq] at hf
    rw [← hf]
    exact ⟨rfl, hs⟩
  · simp [hs] at hf

/-- C4: for every list of column names — (1) each catalog domain scores
2 points per keyword found in the lowercased space-joined blob of
column names, 3 per metric, 2 per entity; (2) when no domain has a
positive score the primary domain is `unknown` with confidence 0;
(3) when a maximum exists, the primary domain is the FIRST domain of
the positive-score list (which respects catalog declaration order)
achieving the maximal score, with confidence `min(score/10, 1)`;
(4) classification is deterministic (a pure function of the names). -/
theorem detectBusinessDomain_spec (colNames : List String) :
    (∀ dn v, (dn, v) ∈ businessDomains →
      (domainScoreMatches (strLower (String.intercalate " " colNames)) v).1 =
        2 * countSub (strLower (String.intercalate " " colNames)) v.keywords +
        3 * countSub (strLower (String.intercalate " " colNames)) v.metrics +
        2 * countSub (strLower (String.intercalate " " colNames)) v.entities) ∧
    (positiveDomainScores colNames = [] →
      (detectBusinessDomain colNames).primary_domain = "unknown" ∧
      (detectBusinessDomain colNames).confidence = 0) ∧
    (∀ x, pymaxByScore (positiveDomainScores colNames) = some x →
      (detectBusinessDomain colNames).primary_domain = x.1 ∧
      (detectBusinessDomain colNames).confidence = min ((x.2.score : ℚ) / 10) 1 ∧
      0 < x.2.score ∧
      ∃ pre post, positiveDomainScores colNames = pre ++ x :: post ∧
        (∀ y ∈ pre, y.2.score < x.2.score) ∧
        (∀ y ∈ post, y.2.score ≤ x.2.score)) ∧
    detectBusinessDomain colNames = detectBusinessDomain colNames := by
  refine ⟨?_, ?_, ?_, rfl⟩
  · intro dn v _
    simp only [domainScoreMatches, domainAcc_score]
    omega
  · intro hnil
    simp [detectBusinessDomain, hnil, pymaxByScore]
  · intro x hx
    have hsplit := pymax_first_max _ x hx
    have hmem : x ∈ positiveDomainScores colNames := by
      obtain ⟨pre, post, heq, _, _⟩ := hsplit
      rw [heq]
      simp
    have hconf := mem_positive_conf colNames x hmem
    refine ⟨?_, ?_, hconf.2, hsplit⟩
    · simp [detectBusinessDomain, hx]
    · simp [detectBusinessDomain, hx, hconf.1]

/-- C4 (witness): on the column names `["branch", "upsell"]` the
classifier picks `rental_car` with the first-maximum characterisation. -/
theorem detectBusinessDomain_spec_witness :
    (detectBusinessDomain ["branch", "upsell"]).primary_domain = "rental_car" ∧
    (detectBusinessDomain ["branch", "upsell"]).confidence =
      min (((9 : ℕ) : ℚ) / 10) 1 ∧
    (0 : ℕ) < 9 ∧
    ∃ pre post, positiveDomainScores ["branch", "upsell"] = pre ++
        ("rental_car", ⟨9, ["branch", "upsell", "up", "branch"],
          min (((9 : ℕ) : ℚ) / 10) 1⟩) :: post ∧
      (∀ y ∈ pre, y.2.score < 9) ∧ (∀ y ∈ post, y.2.score ≤ 9) :=
  (detectBusinessDomain_spec ["branch", "upsell"]).2.2.1
    ("rental_car", ⟨9, ["branch", "upsell", "up", "branch"],
      min (((9 : ℕ) : ℚ) / 10) 1⟩)
    (by with_unfolding_all decide)

/-! ## C3 — overall quality score (`quality.py`, `_calculate_overall_score`) -/

/-- The seven quality dimensions. -/
inductive QDim where
  | completeness
  | consistency
  | validity
  | accuracy
  | uniqueness
  | timeliness
  | integrity
deriving DecidableEq

/-- The fixed `weights` dict of `_calculate_overall_score`, in
declaration order. -/
def qualityWeights : List (QDim × ℚ) :=
  [(.completeness, 1/4), (.consistency, 1/5), (.validity, 1/5), (.accuracy, 3/20),
   (.uniqueness, 1/10), (.timeliness, 1/20), (.integrity, 1/20)]

/-- `_calculate_overall_score`: the report is abstracted by the partial
map `scores` (a dimension maps to `none` when the report lacks it or
its `score` key); the loop accumulates the weighted sum and the total
weight of the present dimensions, and divides — returning `0.0` when no
dimension contributed. -/
def calculateOverallScore (scores : QDim → Option ℚ) : ℚ :=
  let acc := qualityWeights.foldl (fun (a : ℚ × ℚ) p =>
    match scores p.1 with
    | some s => (a.1 + s * p.2, a.2 + p.2)
    | none => a) (0, 0)
  if acc.2 > 0 then acc.1 / acc.2 else 0

/-- The specification-side weighted mean over the dimensions that
produced a score. -/
def specWeightedMean (scores : QDim → Option ℚ) : ℚ :=
  let present := qualityWeights.filter (fun p => (scores p.1).isSome)
  if present.isEmpty then 0
  else (present.map (fun p => (scores p.1).getD 0 * p.2)).sum /
    (present.map Prod.snd).sum

/-- The accumulation loop of `_calculate_overall_score`, evaluated. -/
theorem overall_foldl (scores : QDim → Option ℚ) (l : List (QDim × ℚ)) :
    ∀ a : ℚ × ℚ,
      l.foldl (fun (x : ℚ × ℚ) p =>
        match scores p.1 with
        | some s => (x.1 + s * p.2, x.2 + p.2)
        | none => x) a =
      (a.1 + ((l.filter (fun p => (scores p.1).isSome)).map
          (fun p => (scores p.1).getD 0 * p.2)).sum,
       a.2 + ((l.filter (fun p => (scores p.1).isSome)).map Prod.snd).sum) := by
  induction l with
  | nil => intro a; simp
  | cons p rest ih =>
    intro a
    cases hp : scores p.1 with
    | none => simp [List.foldl_cons, List.filter_cons, hp, ih]
    | some s =>
      simp [List.foldl_cons, List.filter_cons, hp, ih]
      constructor <;> ring

/-- Bounds for the weighted sums over any weight list with positive
weights and scores inside `[0, 100]`. -/
theorem weighted_sum_bounds (scores : QDim → Option ℚ) :
    ∀ l : List (QDim × ℚ),
      (∀ p ∈ l, 0 < p.2) →
      (∀ p ∈ l, ∀ s, scores p.1 = some s → 0 ≤ s ∧ s ≤ 100) →
      0 ≤ (l.map (fun p => (scores p.1).getD 0 * p.2)).sum ∧
      (l.map (fun p => (scores p.1).getD 0 * p.2)).sum ≤
        100 * (l.map Prod.snd).sum ∧
      0 ≤ (l.map Prod.snd).sum := by
  intro l
  induction l with
  | nil => intro _ _; norm_num
  | cons p rest ih =>
    intro hw hs
    obtain ⟨ih1, ih2, ih3⟩ := ih (fun q hq => hw q (by simp [hq]))
      (fun q hq => hs q (by simp [hq]))
    have hpw : 0 < p.2 := hw p (by simp)
    have hterm : 0 ≤ (scores p.1).getD 0 * p.2 ∧
        (scores p.1).getD 0 * p.2 ≤ 100 * p.2 := by
      cases hp : scores p.1 with
      | none => simp; positivity
      | some s =>
        obtain ⟨h0, h100⟩ := hs p (by simp) s hp
        constructor
        · simp [hp]; positivity
        · simp [hp]; nlinarith
    simp only [List.map_cons, List.sum_cons]
    refine ⟨by linarith [hterm.1], by nlinarith [hterm.2], by linarith⟩

/-- A nonempty sublist of the weights has a positive weight sum. -/
theorem pos_weight_sum (l : List (QDim × ℚ)) (hne : l ≠ [])
    (hw : ∀ p ∈ l, 0 < p.2) : 0 < (l.map Prod.snd).sum := by
  cases l with
  | nil => cases hne rfl
  | cons p rest =>
    have h1 := hw p (by simp)
    have h2 : 0 ≤ (rest.map Prod.snd).sum := by
      apply List.sum_nonneg
      intro x hx
      obtain ⟨q, hq, rfl⟩ := List.mem_map.1 hx
      exact le_of_lt (hw q (by simp [hq]))
    simp only [List.map_cons, List.sum_cons]
    linarith

/-- Every weight of the catalog is positive. -/
theorem qualityWeights_pos : ∀ p ∈ qualityWeights, 0 < p.2 := by
  intro p hp
  fin_cases hp <;> norm_num

/-- C3: the weights sum to 1; the overall score is exactly the weighted
mean over the dimensions that produced a score; it always lies in
`[0, 100]` (for dimension scores in `[0, 100]`); and with zero
contributing dimensions it is `0.0` rather than an error. -/
theorem calculateOverallScore_spec (scores : QDim → Option ℚ)
    (hrange : ∀ d s, scores d = some s → 0 ≤ s ∧ s ≤ 100) :
    (qualityWeights.map Prod.snd).sum = 1 ∧
    calculateOverallScore scores = specWeightedMean scores ∧
    0 ≤ calculateOverallScore scores ∧
    calculateOverallScore scores ≤ 100 ∧
    ((∀ d, scores d = none) → calculateOverallScore scores = 0) := by
  have hfold := overall_foldl scores qualityWeights (0, 0)
  have hfilter_mem : ∀ p ∈ qualityWeights.filter (fun p => (scores p.1).isSome),
      p ∈ qualityWeights := fun p hp => (List.mem_filter.1 hp).1
  have hwpos : ∀ p ∈ qualityWeights.filter (fun p => (scores p.1).isSome), 0 < p.2 :=
    fun p hp => qualityWeights_pos p (hfilter_mem p hp)
  have hsrange : ∀ p ∈ qualityWeights.filter (fun p => (scores p.1).isSome),
      ∀ s, scores p.1 = some s → 0 ≤ s ∧ s ≤ 100 := fun p _ s hs => hrange p.1 s hs
  obtain ⟨hb1, hb2, hb3⟩ :=
    weighted_sum_bounds scores (qualityWeights.filter (fun p => (scores p.1).isSome))
      hwpos hsrange
  have hsum1 : (qualityWeights.map Prod.snd).sum = 1 := by
    norm_num [qualityWeights]
  refine ⟨hsum1, ?_, ?_, ?_, ?_⟩
  · simp only [calculateOverallScore, specWeightedMean]
    rw [hfold]
    by_cases hemp : qualityWeights.filter (fun p => (scores p.1).isSome) = []
    · simp [hemp]
    · have hpos := pos_weight_sum _ hemp hwpos
      rw [if_pos (by simpa using hpos), if_neg (by simpa using hemp)]
      norm_num
  · simp only [calculateOverallScore]
    rw [hfold]
    by_cases hemp : qualityWeights.filter (fun p => (scores p.1).isSome) = []
    · simp [hemp]
    · have hpos := pos_weight_sum _ hemp hwpos
      rw [if_pos (by simpa using hpos)]
      exact div_nonneg (by simpa using hb1) (by simpa using hb3)
  · simp only [calculateOverallScore]
    rw [hfold]
    by_cases hemp : qualityWeights.filter (fun p => (scores p.1).isSome) = []
    · simp [hemp]
    · have hpos := pos_weight_sum _ hemp hwpos
      rw [if_pos (by simpa using hpos)]
      rw [div_le_iff₀ (by simpa using hpos)]
      simp only [Prod.fst, Prod.snd, zero_add]
      nlinarith [hb2, hpos]
  · intro hnone
    have hnil : qualityWeights.filter (fun p => (scores p.1).isSome) = [] := by
      simp [List.filter_eq_nil_iff, hnone]
    simp only [calculateOverallScore]
    rw [hfold, hnil]
    simp

/-- C3 (witness): the theorem applied to the report where every
dimension scored 50 (overall `50`, trivially inside the bounds). -/
theorem calculateOverallScore_spec_witness :
    (qualityWeights.map Prod.snd).sum = 1 ∧
    calculateOverallScore (fun _ => some 50) = specWeightedMean (fun _ => some 50) ∧
    0 ≤ calculateOverallScore (fun _ => some 50) ∧
    calculateOverallScore (fun _ => some 50) ≤ 100 ∧
    ((∀ d, (fun _ : QDim => some (50 : ℚ)) d = none) →
      calculateOverallScore (fun _ => some 50) = 0) :=
  calculateOverallScore_spec (fun _ => some 50)
    (by
      intro d s h
      obtain rfl : (50 : ℚ) = s := by simpa using h
      norm_num)

/-! ## C8 — encoding detection and extraction
(`extractor.py`, `_detect_encoding` and `extract_csv`) -/

/-- The result of `chardet.detect`: chardet may report `None` as the
encoding, and a confidence in `[0, 1]`. -/
structure ChardetOut where
  encoding : Option String
  confidence : ℚ

/-- The external world of the byte-level reader: the statistical
detector `chardet.detect` and `bytes.decode(enc)` (`none` models a
UnicodeDecodeError). -/
structure EncodingWorld where
  chardet : List ℕ → ChardetOut
  decode : String → List ℕ → Option String

/-- The fixed fallback list tried when chardet confidence is low. -/
def encodingFallbacks : List String := ["utf-8", "iso-8859-1", "cp1252", "utf-16"]

/-- The fallback loop of `_detect_encoding`: return the first encoding
of the list that decodes the content. -/
def firstDecodable (w : EncodingWorld) (content : List ℕ) : List String → Option String
  | [] => none
  | e :: rest =>
    if (w.decode e content).isSome then some e else firstDecodable w content rest

/-- `_detect_encoding` never raises: chardet failures and the
`AttributeError` from a `None` encoding are caught by the surrounding
`try`, yielding `'utf-8'`; a low-confidence detection falls back
through the fixed list, and otherwise the statistical guess is returned
lowercased.  NOTE: the decodability of the returned encoding is NOT
verified on the high-confidence path, and there is no
`errors='replace'` decoding anywhere. -/
def detectEncoding (w : EncodingWorld) (content : List ℕ) : String :=
  let det := w.chardet content
  if det.confidence < 7 / 10 then
    match firstDecodable w content encodingFallbacks with
    | some e => e
    | none =>
      match det.encoding with
      | some e => strLower e
      | none => "utf-8"
  else
    match det.encoding with
    | some e => strLower e
    | none => "utf-8"

/-- The pipeline stages of `extract_csv` after decoding (CSV-parameter
sniffing, `pd.read_csv`, cleaning, typing, metadata) are pandas-heavy;
they are modelled as an arbitrary fallible computation observed only by
the one outer exception handler of `extract_csv`. -/
structure PipelineWorld extends EncodingWorld where
  rest : String → List ℕ → String → Except String (List (List String))

/-- The outcome of `extract_csv`: the success dict (which records the
encoding used under `extraction_info`) or the structured failure dict
(`success: False` with a human-readable reason). -/
inductive ExtractResult where
  | success (encoding : String) (rows : List (List String))
  | failure (error : String)
deriving DecidableEq

/-- Steps 1–2 of `extract_csv`: detect the encoding, then
`content.decode(encoding)`, which raises when the chosen encoding
cannot decode the buffer. -/
def decodeStage (w : EncodingWorld) (content : List ℕ) : Except String (String × String) :=
  match w.decode (detectEncoding w content) content with
  | some text => .ok (detectEncoding w content, text)
  | none => .error ("UnicodeDecodeError: " ++ detectEncoding w content)

/-- `extract_csv`: the whole pipeline runs inside one `try`; the first
exception is caught and becomes the structured failure result. -/
def extractCsv (w : PipelineWorld) (content : List ℕ) : ExtractResult :=
  match decodeStage w.toEncodingWorld content with
  | .error e => .failure ("Erreur extraction: " ++ e)
  | .ok (enc, text) =>
    match w.rest text content enc with
    | .error e => .failure ("Erreur extraction: " ++ e)
    | .ok rows => .success enc rows

/-- A world where statistical detection reports high confidence for an
encoding that cannot decode the buffer. -/
def badWorld : PipelineWorld :=
  { chardet := fun _ => ⟨some "ascii", 99 / 100⟩,
    decode := fun _ _ => none,
    rest := fun _ _ _ => .error "unreached" }

/-- C8 (counterexample): decoding has NO replacement fallback — when
the confidently detected encoding fails to decode, the decode stage
raises and `extract_csv` returns the structured failure result instead
of decoded text, contradicting « never raise on encoding ambiguity —
always returns decoded text ». -/
theorem claim_C8_counterexample :
    decodeStage badWorld.toEncodingWorld [255] = .error "UnicodeDecodeError: ascii" ∧
    extractCsv badWorld [255] =
      .failure "Erreur extraction: UnicodeDecodeError: ascii" :=
  ⟨by with_unfolding_all rfl, by with_unfolding_all rfl⟩

/-- The fallback loop returns the FIRST decodable encoding of its
list: everything before it fails to decode. -/
theorem firstDecodable_spec (w : EncodingWorld) (content : List ℕ) :
    ∀ (l : List String) (e : String), firstDecodable w content l = some e →
      ∃ pre post, l = pre ++ e :: post ∧
        (∀ y ∈ pre, w.decode y content = none) ∧
        (w.decode e content).isSome = true := by
  intro l
  induction l with
  | nil => intro e h; cases h
  | cons x xs ih =>
    intro e h
    by_cases hx : (w.decode x content).isSome = true
    · simp only [firstDecodable, hx, if_true, Option.some.injEq] at h
      subst h
      exact ⟨[], xs, rfl, by simp, hx⟩
    · simp only [firstDecodable, hx, if_false] at h
      obtain ⟨pre, post, heq, hpre, he⟩ := ih e h
      refine ⟨x :: pre, post, by simp [heq], ?_, he⟩
      intro y hy
      rcases List.mem_cons.1 hy with rfl | hy
      · exact Option.not_isSome_iff_eq_none.1 (by simpa using hx)
      · exact hpre y hy

/-- C8 (amended): encoding detection never raises; when chardet
confidence is below 0.7 the encoding used is the FIRST of
`[utf-8, iso-8859-1, cp1252, utf-16]` that decodes the buffer (when
any does); a successful extraction records exactly the detected
encoding, which did decode the buffer; and for every behaviour of the
external libraries, `extract_csv` returns either the success record or
the structured failure record — never an uncaught exception.  There is
no replacement decoding: a decode failure surfaces as the structured
failure. -/
theorem extractCsv_encoding_spec (w : PipelineWorld) (content : List ℕ) :
    ((w.chardet content).confidence < 7 / 10 →
      ∀ e, firstDecodable w.toEncodingWorld content encodingFallbacks = some e →
        detectEncoding w.toEncodingWorld content = e ∧
        ∃ pre post, encodingFallbacks = pre ++ e :: post ∧
          (∀ y ∈ pre, w.decode y content = none) ∧
          (w.decode e content).isSome = true) ∧
    (∀ enc rows, extractCsv w content = .success enc rows →
      enc = detectEncoding w.toEncodingWorld content ∧
      (w.decode enc content).isSome = true) ∧
    ((∃ enc rows, extractCsv w content = .success enc rows) ∨
      (∃ msg, extractCsv w content = .failure msg)) := by
  refine ⟨?_, ?_, ?_⟩
  · intro hconf e he
    refine ⟨?_, firstDecodable_spec w.toEncodingWorld content encodingFallbacks e he⟩
    simp [detectEncoding, hconf, he]
  · intro enc rows hok
    cases hd : w.decode (detectEncoding w.toEncodingWorld content) content with
    | none => simp [extractCsv, decodeStage, hd] at hok
    | some text =>
      cases hr : w.rest text content (detectEncoding w.toEncodingWorld content) with
      | error e => simp [extractCsv, decodeStage, hd, hr] at hok
      | ok rows2 =>
        simp only [extractCsv, decodeStage, hd, hr] at hok
        obtain ⟨henc, _⟩ := ExtractResult.success.inj hok.symm
        subst henc
        exact ⟨rfl, by simp [hd]⟩
  · cases hd : w.decode (detectEncoding w.toEncodingWorld content) content with
    | none =>
      exact Or.inr ⟨"Erreur extraction: " ++
        ("UnicodeDecodeError: " ++ detectEncoding w.toEncodingWorld content),
        by simp [extractCsv, decodeStage, hd]⟩
    | some text =>
      cases hr : w.rest text content (detectEncoding w.toEncodingWorld content) with
      | error e =>
        exact Or.inr ⟨"Erreur extraction: " ++ e,
          by simp [extractCsv, decodeStage, hd, hr]⟩
      | ok rows =>
        exact Or.inl ⟨detectEncoding w.toEncodingWorld content, rows,
          by simp [extractCsv, decodeStage, hd, hr]⟩

/-- A world with low chardet confidence whose first decodable fallback
is iso-8859-1. -/
def lowConfWorld : PipelineWorld :=
  { chardet := fun _ => ⟨some "MacRoman", 1 / 2⟩,
    decode := fun e _ => if e == "iso-8859-1" then some "decoded text" else none,
    rest := fun _ _ _ => .ok [["a", "b"]] }

/-- C8 (witness): the amended theorem applied to the low-confidence
world, where the encoding falls back to iso-8859-1 (utf-8 having
failed) and extraction succeeds recording it. -/
theorem extractCsv_encoding_spec_witness :
    (detectEncoding lowConfWorld.toEncodingWorld [200] = "iso-8859-1" ∧
      ∃ pre post, encodingFallbacks = pre ++ "iso-8859-1" :: post ∧
        (∀ y ∈ pre, lowConfWorld.decode y [200] = none) ∧
        (lowConfWorld.decode "iso-8859-1" [200]).isSome = true) ∧
    (∃ enc rows, extractCsv lowConfWorld [200] = .success enc rows) ∨
      (∃ msg, extractCsv lowConfWorld [200] = .failure msg) := by
  have h := extractCsv_encoding_spec lowConfWorld [200]
  exact Or.inl ⟨h.1 (by norm_num [lowConfWorld]) "iso-8859-1" (by rfl),
    h.2.2.resolve_right
      (by
        rintro ⟨msg, hmsg⟩
        rw [show extractCsv lowConfWorld [200] =
          .success "iso-8859-1" [["a", "b"]] from by with_unfolding_all rfl] at hmsg
        cases hmsg)⟩

/-! ## The quality checker (`quality.py`, `QualityChecker.check_quality`
and its seven dimension checkers) -/

/-- Render a rational with one decimal, approximating Python `%.1f`
(tie-rounding of binary floats is below the precision any verified
property inspects). -/
def fmt1 (q : ℚ) : String :=
  let n := round (q * 10)
  if n < 0 then "-" ++ toString ((-n).toNat / 10) ++ "." ++ toString ((-n).toNat % 10)
  else toString (n.toNat / 10) ++ "." ++ toString (n.toNat % 10)

/-- `_check_completeness` result. -/
structure CompletenessResult where
  score : ℚ
  missing_cells : ℕ
  total_cells : ℕ
  column_completeness : List (String × ℚ)
  issues : List String
deriving DecidableEq

/-- `_check_completeness` (pure; `check_quality` guarantees a nonempty
frame, so the per-column division by `len(df)` cannot divide by zero —
the Lean `x / 0 = 0` convention covers the unreachable case). -/
def checkCompleteness (t : Table) : CompletenessResult :=
  let total := t.nrows * t.ncols
  let missing := (t.cols.map (fun c => countMissing c.cells)).sum
  let ratio : ℚ := if total > 0 then ((total : ℚ) - (missing : ℚ)) / (total : ℚ) else 0
  let colComp := t.cols.map (fun c =>
    (c.name, 1 - (countMissing c.cells : ℚ) / (t.nrows : ℚ)))
  let colIssues := (t.cols.filter
      (fun c => decide (1 - (countMissing c.cells : ℚ) / (t.nrows : ℚ) < 8 / 10))).map
    (fun c => "Colonne \x27" ++ c.name ++ "\x27: " ++
      fmt1 ((countMissing c.cells : ℚ) / (t.nrows : ℚ) * 100) ++ "% de valeurs manquantes")
  let issues := colIssues ++
    (if ratio < 8 / 10 then ["Complétude globale faible: " ++ fmt1 (ratio * 100) ++ "%"]
     else [])
  ⟨ratio * 100, missing, total, colComp, issues⟩

/-- `_check_consistency` result. -/
structure ConsistencyResult where
  score : ℚ
  type_inconsistencies : ℕ
  issues : List String
deriving DecidableEq

/-- Loop 1 of `_check_consistency`: per object column, the share of the
first 100 non-missing values that `float()`-parse after dropping commas
and double quotes; Python evaluates `numeric_like / len(sample_values)`
BEFORE the chained comparison, so an object column with no non-missing
value raises ZeroDivisionError. -/
def consistencyTypeScan : List Column → Except String (ℕ × List String)
  | [] => .ok (0, [])
  | c :: rest => do
    let here ←
      if c.dtype = DType.object then
        let sample := (nonMissing c.cells).take 100
        if sample.isEmpty then
          throw "division by zero"
        else
          let numericLike := (sample.filter (fun v =>
            pyFloatOk (strReplace (strReplace v.pyStr "," "") "\"" ""))).length
          let r : ℚ := (numericLike : ℚ) / (sample.length : ℚ)
          if 3 / 10 < r ∧ r < 9 / 10 then
            pure ((1 : ℕ), ["Colonne \x27" ++ c.name ++ "\x27: Types mixtes détectés"])
          else pure (0, [])
      else pure (0, ([] : List String))
    let later ← consistencyTypeScan rest
    pure (here.1 + later.1, here.2 ++ later.2)

/-- Loop 2 of `_check_consistency`: percent-format and monetary-format
issues from the first 50 `astype(str)` values of each column. -/
def consistencyFormatIssues (t : Table) : List String :=
  t.cols.foldl (fun acc c =>
    let low := colLower c
    let pcIssues :=
      if strContains low "%" || strContains low "rate" then
        let sample := (colStrs c).take 50
        let hp := (sample.filter (fun s => strContains s "%")).length
        if 0 < hp ∧ (hp : ℚ) < (sample.length : ℚ) * (8 / 10) then
          ["Colonne \x27" ++ c.name ++ "\x27: Format pourcentage incohérent"]
        else []
      else []
    let monIssues :=
      if containsAnyKw low ["revenue", "price", "cost", "package"] then
        let sample := (colStrs c).take 50
        let hc := (sample.filter (fun s => strContains s ",")).length
        let hq := (sample.filter (fun s => strContains s "\"")).length
        if 0 < hc ∧ hq ≠ hc then
          ["Colonne \x27" ++ c.name ++ "\x27: Format monétaire incohérent"]
        else []
      else []
    acc ++ pcIssues ++ monIssues) []

/-- Loop 3 of `_check_consistency`: the SIXT agent pattern
`ID - Name` / `Exit Employee` on the first agent column. -/
def consistencyAgentIssues (t : Table) : List String :=
  match t.cols.filter (fun c => strContains (colLower c) "agent") with
  | [] => []
  | c :: _ =>
    let vals := colStrs c
    let valid := ((vals.take 100).filter (fun v =>
      strContains v " - " || strContains (strLower v) "exit employee")).length
    let r : ℚ := (valid : ℚ) / ((min 100 vals.length : ℕ) : ℚ)
    if r < 9 / 10 then
      ["Colonne \x27" ++ c.name ++ "\x27: Pattern agent incohérent"]
    else []

/-- `_check_consistency` (the only dimension checker with a reachable
raise point). -/
def checkConsistency (t : Table) : Except String ConsistencyResult := do
  let scan ← consistencyTypeScan t.cols
  let issues := scan.2 ++ consistencyFormatIssues t ++ consistencyAgentIssues t
  let score1 : ℚ :=
    if scan.1 > 0 then 1 - ((scan.1 : ℚ) / (t.ncols : ℚ)) * (3 / 10) else 1
  pure ⟨max 0 score1 * 100, scan.1, issues⟩

/-- `_check_validity` result. -/
structure ValidityResult where
  score : ℚ
  invalid_values_count : ℕ
  issues : List String
deriving DecidableEq

/-- `_check_validity` (pure: every conversion uses coercion and every
division is guarded). -/
def checkValidity (t : Table) : ValidityResult :=
  let step := fun (acc : ℕ × List String) (c : Column) =>
    let low := colLower c
    let acc :=
      if containsAnyKw low ["count", "number", "#", "contracts"] then
        let nums := (colStrs c).map (fun s =>
          pdToNumeric (strReplace (strReplace s "," "") "\"" ""))
        let neg := (nums.filter (fun o =>
          match o with
          | some v => decide (v < 0)
          | none => false)).length
        if neg > 0 then
          (acc.1 + neg, acc.2 ++ ["Colonne \x27" ++ c.name ++ "\x27: " ++
            toString neg ++ " valeurs négatives inappropriées"])
        else acc
      else acc
    let acc :=
      if strContains c.name "%" || strContains low "rate" || strContains low "share" then
        let nums := (colStrs c).map (fun s =>
          pdToNumeric (strReplace (strReplace s "%" "") "," ""))
        if ¬ nums.all Option.isNone then
          let oor := (nums.filter (fun o =>
            match o with
            | some v => decide (v < 0 ∨ v > 100)
            | none => false)).length
          if oor > 0 then
            (acc.1 + oor, acc.2 ++ ["Colonne \x27" ++ c.name ++ "\x27: " ++
              toString oor ++ " pourcentages hors limites"])
          else acc
        else acc
      else acc
    if containsAnyKw low ["revenue", "package", "ir"] then
      let nums := (colStrs c).map (fun s =>
        pdToNumeric (strReplace (strReplace s "," "") "\"" ""))
      if ¬ nums.all Option.isNone then
        let excessive := (nums.filter (fun o =>
          match o with
          | some v => decide (v > 1000000)
          | none => false)).length
        if excessive > 0 then
          (acc.1, acc.2 ++ ["Colonne \x27" ++ c.name ++ "\x27: " ++
            toString excessive ++ " valeurs potentiellement aberrantes"])
        else acc
      else acc
    else acc
  let res := t.cols.foldl step (0, [])
  let total := t.nrows * t.ncols
  let score : ℚ := if total > 0 then max 0 (1 - (res.1 : ℚ) / (total : ℚ)) else 1
  ⟨score * 100, res.1, res.2⟩

/-- `_check_accuracy` result. -/
structure AccuracyResult where
  score : ℚ
  indicators : List String
  issues : List String
deriving DecidableEq

/-- `str(row.iloc[0])` for a row index: the first column's cell
rendered (`check_quality` guarantees at least one column). -/
def firstColCellStr (t : Table) (r : ℕ) : String :=
  match t.cols with
  | [] => "nan"
  | c :: _ => (c.cells.getD r .missing).pyStr

/-- Accuracy indicators from total/sum columns: for each such column,
the last (up to) 3 rows are scanned and one indicator is appended when
the first cell of some row mentions total/sum or contains a comma. -/
def totalRowIndicators (t : Table) : List String :=
  (t.cols.filter (fun c =>
      strContains (colLower c) "total" || strContains (colLower c) "sum")).foldl
    (fun acc _ =>
      let lastRows := (List.range t.nrows).drop (t.nrows - min 3 t.nrows)
      if lastRows.any (fun r =>
          containsAnyKw (strLower (firstColCellStr t r)) ["total", "sum", ","]) then
        acc ++ ["Ligne de total détectée"]
      else acc) []

/-- Accuracy indicators from `Exit Employee` rows: for the first agent
column, when exit rows exist, each of the first 3 numeric columns whose
exit values are mostly zeros adds an indicator. -/
def exitIndicators (t : Table) : List String :=
  match t.cols.filter (fun c => strContains (colLower c) "agent") with
  | [] => []
  | a :: _ =>
    let numericCols := t.cols.filter (fun c =>
      c.dtype = DType.float64 ∨ c.dtype = DType.int64)
    if numericCols.isEmpty then []
    else
      let exitRows := (List.range t.nrows).filter (fun r =>
        strContains (strLower ((a.cells.getD r .missing).pyStr)) "exit employee")
      if exitRows.length > 0 then
        (numericCols.take 3).foldl (fun acc c =>
          let nums := exitRows.map (fun r =>
            pdToNumeric (strReplace (strReplace ((c.cells.getD r .missing).pyStr)
              "," "") "\"" ""))
          let zr : ℚ :=
            if nums.length > 0 then
              (((nums.filter (fun o => o == some 0)).length : ℕ) : ℚ) / (nums.length : ℚ)
            else 0
          if zr > 8 / 10 then
            acc ++ ["Exit Employees avec données cohérentes (mostly zeros) in " ++ c.name]
          else acc) []
      else []

/-- The count of the most frequent value (`value_counts().iloc[0]`). -/
def maxMult (l : List Cell) : ℕ :=
  (l.dedup.map (fun v => l.count v)).foldl max 0

/-- Accuracy issues: object columns where one value covers more than
half of the rows while not being the only value. -/
def dominanceIssues (t : Table) : List String :=
  (t.cols.filter (fun c => c.dtype = DType.object)).foldl (fun acc c =>
    let vals := nonMissing c.cells
    if vals.dedup.length > 0 then
      let r : ℚ := (maxMult vals : ℚ) / (t.nrows : ℚ)
      if r > 1 / 2 ∧ vals.dedup.length > 1 then
        acc ++ ["Colonne \x27" ++ c.name ++ "\x27: " ++ fmt1 (r * 100) ++
          "% de valeurs identiques"]
      else acc
    else acc) []

/-- `_check_accuracy`: base 80, +5 per indicator, −10 per issue,
clamped to `[0, 100]`. -/
def checkAccuracy (t : Table) : AccuracyResult :=
  let inds := totalRowIndicators t ++ exitIndicators t
  let iss := dominanceIssues t
  let sc : ℚ := max 0 (min 100 (80 + 5 * (inds.length : ℚ) - 10 * (iss.length : ℚ)))
  ⟨sc, inds, iss⟩

/-- `_check_uniqueness` result. -/
structure UniquenessResult where
  score : ℚ
  duplicate_rows : ℕ
  duplicate_ids : ℕ
  issues : List String
deriving DecidableEq

/-- The rows of the frame as cell tuples (pandas `duplicated` treats
NaNs as equal, as plain cell equality does here). -/
def tableRows (t : Table) : List (List Cell) :=
  (List.range t.nrows).map (fun r => t.cols.map (fun c => c.cells.getD r .missing))

/-- `duplicated().sum()`: the number of later occurrences. -/
def dupRowCount (l : List (List Cell)) : ℕ := l.length - l.dedup.length

/-- `Series.duplicated().sum()` over one column. -/
def dupCellCount (l : List Cell) : ℕ := l.length - l.dedup.length

/-- `_check_uniqueness`. -/
def checkUniqueness (t : Table) : UniquenessResult :=
  let dupRows := dupRowCount (tableRows t)
  let idCols := t.cols.filter (fun c =>
    containsAnyKw (colLower c) ["id", "agent", "employee"])
  let dupIds := (idCols.map (fun c => dupCellCount c.cells)).sum
  let idIssues := (idCols.filter (fun c => dupCellCount c.cells > 0)).map
    (fun c => "Colonne \x27" ++ c.name ++ "\x27: " ++
      toString (dupCellCount c.cells) ++ " valeurs dupliquées")
  let expected := if idCols.isEmpty then t.nrows else t.nrows * idCols.length
  let totalD := dupRows + dupIds
  let score : ℚ := max 0 (1 - (totalD : ℚ) / ((max 1 expected : ℕ) : ℚ))
  let issues := idIssues ++
    (if dupRows > 0 then [toString dupRows ++ " lignes entièrement dupliquées"] else [])
  ⟨score * 100, dupRows, dupIds, issues⟩

/-- `_check_timeliness` result. -/
structure TimelinessResult where
  score : ℚ
  date_columns_found : ℕ
  issues : List String
deriving DecidableEq

/-- `_check_timeliness`: `parseDT` models `pd.to_datetime(_,
errors='coerce')` per cell (a day number), `now` models
`datetime.datetime.now()`; the whole per-column body sits inside a
`try` whose handler only logs, and none of the modelled operations can
raise. -/
def checkTimeliness (parseDT : Cell → Option ℤ) (now : ℤ) (t : Table) :
    TimelinessResult :=
  let dateCols := t.cols.filter (fun c =>
    containsAnyKw (colLower c) ["date", "month", "year", "time"])
  if dateCols.isEmpty then
    ⟨60, 0, ["Aucune colonne de date détectée - impossible de vérifier la fraîcheur"]⟩
  else
    let step := fun (acc : ℚ × List String) (c : Column) =>
      match c.cells.filterMap parseDT with
      | [] => acc
      | v :: vs =>
        let latest := vs.foldl max v
        let oldest := vs.foldl min v
        let days := now - latest
        let acc :=
          if days > 365 then
            (acc.1 - 20, acc.2 ++ ["Colonne \x27" ++ c.name ++
              "\x27: Données datent de plus d\x27un an"])
          else if days > 30 then
            (acc.1 - 10, acc.2 ++ ["Colonne \x27" ++ c.name ++
              "\x27: Données datent de plus d\x27un mois"])
          else acc
        if latest - oldest > 365 * 2 then
          (acc.1, acc.2 ++ ["Colonne \x27" ++ c.name ++
            "\x27: Très large plage temporelle (" ++ toString (latest - oldest) ++
            " jours)"])
        else acc
    let res := dateCols.foldl step (85, [])
    ⟨max 0 res.1, dateCols.length, res.2⟩

/-- `_check_integrity` result. -/
structure IntegrityResult where
  score : ℚ
  empty_columns : ℕ
  empty_rows : ℕ
  special_char_issues : ℕ
  issues : List String
deriving DecidableEq

/-- `_check_integrity` (column names are strings here, so the
`pd.isna(col)` arm of the empty-header test cannot fire). -/
def checkIntegrity (t : Table) : IntegrityResult :=
  let emptyHeaders := (t.cols.filter (fun c => strTrim c.name == "")).length
  let emptyCols := t.cols.filter (fun c => c.cells.all Cell.isMissing)
  let emptyRows := ((List.range t.nrows).filter (fun r =>
    t.cols.all (fun c => (c.cells.getD r .missing).isMissing))).length
  let special := (t.cols.filter (fun c =>
    strContains c.name "\n" || strContains c.name "\r" || strContains c.name "\t")).length
  let i1 := if emptyHeaders > 0 then [toString emptyHeaders ++ " colonnes sans nom"] else []
  let i2 :=
    if emptyCols.length > 0 then
      [toString emptyCols.length ++ " colonnes entièrement vides: " ++
        toString (emptyCols.map Column.name)]
    else []
  let i3 := if emptyRows > 0 then [toString emptyRows ++ " lignes entièrement vides"] else []
  let i4 := if t.ncols < 2 then ["Très peu de colonnes détectées"] else []
  let i5 :=
    if special > 0 then [toString special ++ " colonnes avec caractères de contrôle"]
    else []
  let sc : ℚ := 100 - (if emptyHeaders > 0 then 20 else 0) -
    10 * (emptyCols.length : ℚ) -
    (if emptyRows > 0 then min 20 (2 * (emptyRows : ℚ)) else 0) -
    (if t.ncols < 2 then 30 else 0) -
    5 * (special : ℚ)
  ⟨max 0 sc, emptyCols.length, emptyRows, special, i1 ++ i2 ++ i3 ++ i4 ++ i5⟩

/-- One anomaly record of `_detect_anomalies`. -/
structure Anomaly where
  atype : String
  column : String
  cnt : ℕ
  description : String
deriving DecidableEq

/-- The numeric values of a column (`dropna` of a float series). -/
def colNums (c : Column) : List ℚ :=
  c.cells.filterMap (fun x =>
    match x with
    | .num q => some q
    | _ => none)

/-- Sample mean. -/
def qMean (l : List ℚ) : ℚ := l.sum / (l.length : ℚ)

/-- Sample variance with `ddof = 1` (the pandas default). -/
def qVarSample (l : List ℚ) : ℚ :=
  ((l.map (fun x => (x - qMean l) ^ 2)).sum) / ((l.length : ℚ) - 1)

/-- Extreme-outlier anomalies (3·IQR rule, numeric columns with more
than 4 values). -/
def numericAnomalies (t : Table) : List Anomaly :=
  (t.cols.filter (fun c => c.dtype = DType.float64 ∨ c.dtype = DType.int64)).foldl
    (fun acc c =>
      let s := colNums c
      if s.length > 4 then
        let q1 := pdQuantile s (1 / 4)
        let q3 := pdQuantile s (3 / 4)
        let iqr := q3 - q1
        let ext := (s.filter (fun v =>
          decide (v < q1 - 3 * iqr ∨ v > q3 + 3 * iqr))).length
        if ext > 0 then
          acc ++ [⟨"extreme_outlier", c.name, ext,
            toString ext ++ " valeurs extrêmement aberrantes"⟩]
        else acc
      else acc) []

/-- String-length anomalies: the source compares the sample standard
deviation with half the mean; both sides are nonnegative, so the
comparison is stated square-free on the sample variance (the σ value
printed in the description is irrational and elided). -/
def formatAnomalies (t : Table) : List Anomaly :=
  t.cols.foldl (fun acc c =>
    if c.dtype = DType.object then
      let lens : List ℚ :=
        (((nonMissing c.cells).map Cell.pyStr).take 100).map (fun s => (s.length : ℚ))
      if lens.length > 10 then
        if qVarSample lens > (qMean lens / 2) ^ 2 then
          acc ++ [⟨"format_inconsistency", c.name, 1, "Grandes variations de longueur"⟩]
        else acc
      else acc
    else acc) []

/-- Agent-name anomalies: values containing a run of 10 or more
digits. -/
def agentAnomalies (t : Table) : List Anomaly :=
  match t.cols.filter (fun c => strContains (colLower c) "agent") with
  | [] => []
  | c :: _ =>
    let susp := ((colStrs c).filter (fun s => hasDigitRun 10 s)).length
    if susp > 0 then
      [⟨"data_quality", c.name, susp, "Agents avec noms suspects (IDs très longs)"⟩]
    else []

/-- `_detect_anomalies`. -/
def detectAnomalies (t : Table) : List Anomaly :=
  numericAnomalies t ++ formatAnomalies t ++ agentAnomalies t

/-- `_generate_quality_recommendations`, reading the report through the
seven scores and the anomaly count. -/
def generateQualityRecommendations (overall : ℚ) (scores : QDim → Option ℚ)
    (anomCount : ℕ) : List String :=
  let band :=
    if overall ≥ 90 then "🎉 Excellente qualité de données - dataset prêt pour l\x27analyse"
    else if overall ≥ 80 then
      "✅ Bonne qualité de données - quelques améliorations mineures possibles"
    else if overall ≥ 70 then "⚠️ Qualité acceptable - attention aux points de vigilance"
    else if overall ≥ 60 then "❌ Qualité problématique - nettoyage recommandé"
    else "🚨 Qualité critique - révision complète nécessaire"
  [band] ++
  (if (scores .completeness).getD 100 < 80 then
    ["📊 Traiter les valeurs manquantes avant analyse"] else []) ++
  (if (scores .consistency).getD 100 < 80 then
    ["🔧 Standardiser les formats de données"] else []) ++
  (if (scores .validity).getD 100 < 80 then
    ["✂️ Nettoyer les valeurs aberrantes"] else []) ++
  (if (scores .uniqueness).getD 100 < 90 then
    ["🗑️ Éliminer les doublons détectés"] else []) ++
  (if (scores .timeliness).getD 100 < 70 then
    ["📅 Vérifier la fraîcheur des données"] else []) ++
  (if anomCount > 0 then
    ["🔍 Investiguer " ++ toString anomCount ++ " anomalie(s) détectée(s)"] else [])

/-- One dimension entry of the returned report dict (its `score` and
`issues` keys; the per-dimension diagnostic extras are carried by the
checker result structures above). -/
structure DimScore where
  score : ℚ
  issues : List String
deriving DecidableEq

/-- A value of the report dict. -/
inductive RVal where
  | num (q : ℚ)
  | dim (d : DimScore)
  | anomalies (l : List Anomaly)
  | recs (l : List String)
deriving DecidableEq

/-- The report dict: ordered key/value pairs. -/
abbrev Report := List (String × RVal)

/-- Dict lookup. -/
def lookupR (r : Report) (k : String) : Option RVal :=
  (r.find? (fun p => p.1 == k)).map Prod.snd

/-- The score of a dimension entry of the report, when present. -/
def lookupScore (r : Report) (k : String) : Option ℚ :=
  match lookupR r k with
  | some (.dim d) => some d.score
  | _ => none

/-- `_get_empty_quality_report`. -/
def emptyQualityReport : Report :=
  [("overall_score", .num 0),
   ("completeness", .dim ⟨0, ["Dataset vide"]⟩),
   ("consistency", .dim ⟨0, ["Dataset vide"]⟩),
   ("validity", .dim ⟨0, ["Dataset vide"]⟩),
   ("accuracy", .dim ⟨0, ["Dataset vide"]⟩),
   ("uniqueness", .dim ⟨0, ["Dataset vide"]⟩),
   ("timeliness", .dim ⟨0, ["Dataset vide"]⟩),
   ("integrity", .dim ⟨0, ["Dataset vide"]⟩),
   ("anomalies", .anomalies []),
   ("recommendations", .recs ["Vérifier la source des données"])]

/-- `_get_error_quality_report`: EVERY dimension is zero-scored, the
error message lands in the completeness issue list only. -/
def errorQualityReport (msg : String) : Report :=
  [("overall_score", .num 0),
   ("completeness", .dim ⟨0, ["Erreur: " ++ msg]⟩),
   ("consistency", .dim ⟨0, []⟩),
   ("validity", .dim ⟨0, []⟩),
   ("accuracy", .dim ⟨0, []⟩),
   ("uniqueness", .dim ⟨0, []⟩),
   ("timeliness", .dim ⟨0, []⟩),
   ("integrity", .dim ⟨0, []⟩),
   ("anomalies", .anomalies []),
   ("recommendations", .recs ["Vérifier le format des données"])]

/-- `check_quality`: an empty frame yields the empty report; otherwise
the dimensions are computed in source order inside the ONE `try` of the
method, so the first raising dimension aborts the whole computation and
the handler returns the all-zero error report.  `overall_score` is
computed from the dict through `_calculate_overall_score`, where every
dimension entry is present. -/
def checkQuality (parseDT : Cell → Option ℤ) (now : ℤ) (t : Table) : Report :=
  if t.isEmptyTable then emptyQualityReport
  else
    match (do
      let comp := checkCompleteness t
      let cons ← checkConsistency t
      let val := checkValidity t
      let acc := checkAccuracy t
      let uniq := checkUniqueness t
      let tim := checkTimeliness parseDT now t
      let integ := checkIntegrity t
      let anom := detectAnomalies t
      let scores : QDim → Option ℚ := fun d =>
        match d with
        | .completeness => some comp.score
        | .consistency => some cons.score
        | .validity => some val.score
        | .accuracy => some acc.score
        | .uniqueness => some uniq.score
        | .timeliness => some tim.score
        | .integrity => some integ.score
      let overall := calculateOverallScore scores
      let recs := generateQualityRecommendations overall scores anom.length
      pure (([("overall_score", RVal.num overall),
        ("completeness", RVal.dim ⟨comp.score, comp.issues⟩),
        ("consistency", RVal.dim ⟨cons.score, cons.issues⟩),
        ("validity", RVal.dim ⟨val.score, val.issues⟩),
        ("accuracy", RVal.dim ⟨acc.score, acc.issues⟩),
        ("uniqueness", RVal.dim ⟨uniq.score, uniq.issues⟩),
        ("timeliness", RVal.dim ⟨tim.score, tim.issues⟩),
        ("integrity", RVal.dim ⟨integ.score, integ.issues⟩),
        ("anomalies", RVal.anomalies anom),
        ("recommendations", RVal.recs recs)] : Report))
      : Except String Report) with
    | .ok r => r
    | .error e => errorQualityReport e

/-- On a nonempty frame, a raising dimension makes `check_quality`
return the all-zero error report (shared helper for the claims below). -/
theorem checkQuality_error_eq (p : Cell → Option ℤ) (now : ℤ) (t : Table) (e : String)
    (hne : t.isEmptyTable = false) (hc : checkConsistency t = .error e) :
    checkQuality p now t = errorQualityReport e := by
  simp [checkQuality, hne, hc, Except.bind]

/-- On a nonempty frame with no raising dimension, `check_quality`
returns the assembled success report (shared helper). -/
theorem checkQuality_ok_eq (p : Cell → Option ℤ) (now : ℤ) (t : Table)
    (cons : ConsistencyResult)
    (hne : t.isEmptyTable = false) (hc : checkConsistency t = .ok cons) :
    checkQuality p now t =
      [("overall_score", RVal.num (calculateOverallScore (fun d =>
          match d with
          | .completeness => some (checkCompleteness t).score
          | .consistency => some cons.score
          | .validity => some (checkValidity t).score
          | .accuracy => some (checkAccuracy t).score
          | .uniqueness => some (checkUniqueness t).score
          | .timeliness => some (checkTimeliness p now t).score
          | .integrity => some (checkIntegrity t).score))),
       ("completeness", RVal.dim ⟨(checkCompleteness t).score, (checkCompleteness t).issues⟩),
       ("consistency", RVal.dim ⟨cons.score, cons.issues⟩),
       ("validity", RVal.dim ⟨(checkValidity t).score, (checkValidity t).issues⟩),
       ("accuracy", RVal.dim ⟨(checkAccuracy t).score, (checkAccuracy t).issues⟩),
       ("uniqueness", RVal.dim ⟨(checkUniqueness t).score, (checkUniqueness t).issues⟩),
       ("timeliness", RVal.dim ⟨(checkTimeliness p now t).score,
          (checkTimeliness p now t).issues⟩),
       ("integrity", RVal.dim ⟨(checkIntegrity t).score, (checkIntegrity t).issues⟩),
       ("anomalies", RVal.anomalies (detectAnomalies t)),
       ("recommendations", RVal.recs (generateQualityRecommendations
          (calculateOverallScore (fun d =>
            match d with
            | .completeness => some (checkCompleteness t).score
            | .consistency => some cons.score
            | .validity => some (checkValidity t).score
            | .accuracy => some (checkAccuracy t).score
            | .uniqueness => some (checkUniqueness t).score
            | .timeliness => some (checkTimeliness p now t).score
            | .integrity => some (checkIntegrity t).score))
          (fun d =>
            match d with
            | .completeness => some (checkCompleteness t).score
            | .consistency => some cons.score
            | .validity => some (checkValidity t).score
            | .accuracy => some (checkAccuracy t).score
            | .uniqueness => some (checkUniqueness t).score
            | .timeliness => some (checkTimeliness p now t).score
            | .integrity => some (checkIntegrity t).score)
          (detectAnomalies t).length))] := by
  simp [checkQuality, hne, hc, Except.bind]

/-! ## C1 — exception isolation across quality dimensions -/

/-- A nonempty frame on which `_check_consistency` raises
(ZeroDivisionError: its second, all-missing object column has an empty
non-missing sample). -/
def tblConsZeroDiv : Table :=
  ⟨1, [⟨"a", .object, [.str "x"]⟩, ⟨"b", .object, [.missing]⟩]⟩

/-- C1 (counterexample): when the consistency dimension raises, the
returned report zero-scores EVERY dimension — completeness, which would
normally score 50 on this frame, is reported as 0 (and so is validity)
— refuting « zero-scores only that dimension while every other
dimension is still computed normally ». -/
theorem claim_C1_counterexample :
    checkConsistency tblConsZeroDiv = .error "division by zero" ∧
    (checkCompleteness tblConsZeroDiv).score = 50 ∧
    lookupScore (checkQuality (fun _ => none) 0 tblConsZeroDiv) "completeness" = some 0 ∧
    lookupScore (checkQuality (fun _ => none) 0 tblConsZeroDiv) "validity" = some 0 := by
  refine ⟨by with_unfolding_all rfl, by with_unfolding_all decide,
    by with_unfolding_all rfl, by with_unfolding_all rfl⟩

/-- C1 (amended): any internal exception during a dimension's
computation is caught by the ONE `try/except` wrapping all of
`check_quality`, which then returns `_get_error_quality_report`: the
overall report is still produced, but EVERY dimension is zero-scored —
the explanatory issue (`Erreur: <msg>`) is attached to completeness
alone — with `overall_score = 0` and the generic recommendation. -/
theorem checkQuality_exception_zeroes_all (p : Cell → Option ℤ) (now : ℤ)
    (t : Table) (e : String)
    (hne : t.isEmptyTable = false) (hc : checkConsistency t = .error e) :
    checkQuality p now t = errorQualityReport e ∧
    lookupScore (checkQuality p now t) "completeness" = some 0 ∧
    lookupScore (checkQuality p now t) "consistency" = some 0 ∧
    lookupScore (checkQuality p now t) "validity" = some 0 ∧
    lookupScore (checkQuality p now t) "accuracy" = some 0 ∧
    lookupScore (checkQuality p now t) "uniqueness" = some 0 ∧
    lookupScore (checkQuality p now t) "timeliness" = some 0 ∧
    lookupScore (checkQuality p now t) "integrity" = some 0 ∧
    lookupR (checkQuality p now t) "overall_score" = some (.num 0) ∧
    lookupR (checkQuality p now t) "completeness" =
      some (.dim ⟨0, ["Erreur: " ++ e]⟩) ∧
    lookupR (checkQuality p now t) "recommendations" =
      some (.recs ["Vérifier le format des données"]) := by
  have hrep := checkQuality_error_eq p now t e hne hc
  rw [hrep]
  exact ⟨rfl, rfl, rfl, rfl, rfl, rfl, rfl, rfl, rfl, rfl, rfl⟩

/-- C1 (witness): the amended theorem applied to the concrete frame
whose consistency check divides by zero. -/
theorem checkQuality_exception_zeroes_all_witness :
    checkQuality (fun _ => none) 0 tblConsZeroDiv =
      errorQualityReport "division by zero" ∧
    lookupScore (checkQuality (fun _ => none) 0 tblConsZeroDiv) "completeness" = some 0 ∧
    lookupScore (checkQuality (fun _ => none) 0 tblConsZeroDiv) "consistency" = some 0 ∧
    lookupScore (checkQuality (fun _ => none) 0 tblConsZeroDiv) "validity" = some 0 ∧
    lookupScore (checkQuality (fun _ => none) 0 tblConsZeroDiv) "accuracy" = some 0 ∧
    lookupScore (checkQuality (fun _ => none) 0 tblConsZeroDiv) "uniqueness" = some 0 ∧
    lookupScore (checkQuality (fun _ => none) 0 tblConsZeroDiv) "timeliness" = some 0 ∧
    lookupScore (checkQuality (fun _ => none) 0 tblConsZeroDiv) "integrity" = some 0 ∧
    lookupR (checkQuality (fun _ => none) 0 tblConsZeroDiv) "overall_score" =
      some (.num 0) ∧
    lookupR (checkQuality (fun _ => none) 0 tblConsZeroDiv) "completeness" =
      some (.dim ⟨0, ["Erreur: " ++ "division by zero"]⟩) ∧
    lookupR (checkQuality (fun _ => none) 0 tblConsZeroDiv) "recommendations" =
      some (.recs ["Vérifier le format des données"]) :=
  checkQuality_exception_zeroes_all (fun _ => none) 0 tblConsZeroDiv "division by zero"
    (by rfl) (by with_unfolding_all rfl)

/-! ## C9 — report shape invariance -/

/-- C9: for every table and every behaviour of the external date
parser and clock, the report returned by `check_quality` — on the
success, empty and error paths alike — contains all seven dimension
keys, each a record with a numeric score and an issues list, plus a
numeric `overall_score` and a `recommendations` list. -/
theorem checkQuality_report_shape (p : Cell → Option ℤ) (now : ℤ) (t : Table) :
    (∃ d, lookupR (checkQuality p now t) "completeness" = some (.dim d)) ∧
    (∃ d, lookupR (checkQuality p now t) "consistency" = some (.dim d)) ∧
    (∃ d, lookupR (checkQuality p now t) "validity" = some (.dim d)) ∧
    (∃ d, lookupR (checkQuality p now t) "accuracy" = some (.dim d)) ∧
    (∃ d, lookupR (checkQuality p now t) "uniqueness" = some (.dim d)) ∧
    (∃ d, lookupR (checkQuality p now t) "timeliness" = some (.dim d)) ∧
    (∃ d, lookupR (checkQuality p now t) "integrity" = some (.dim d)) ∧
    (∃ q, lookupR (checkQuality p now t) "overall_score" = some (.num q)) ∧
    (∃ l, lookupR (checkQuality p now t) "recommendations" = some (.recs l)) := by
  by_cases he : t.isEmptyTable = true
  · have hrep : checkQuality p now t = emptyQualityReport := by
      simp [checkQuality, he]
    rw [hrep]
    exact ⟨⟨_, rfl⟩, ⟨_, rfl⟩, ⟨_, rfl⟩, ⟨_, rfl⟩, ⟨_, rfl⟩, ⟨_, rfl⟩, ⟨_, rfl⟩,
      ⟨_, rfl⟩, ⟨_, rfl⟩⟩
  · have hne : t.isEmptyTable = false := by simpa using he
    cases hc : checkConsistency t with
    | error e =>
      rw [checkQuality_error_eq p now t e hne hc]
      exact ⟨⟨_, rfl⟩, ⟨_, rfl⟩, ⟨_, rfl⟩, ⟨_, rfl⟩, ⟨_, rfl⟩, ⟨_, rfl⟩, ⟨_, rfl⟩,
        ⟨_, rfl⟩, ⟨_, rfl⟩⟩
    | ok cons =>
      rw [checkQuality_ok_eq p now t cons hne hc]
      exact ⟨⟨_, rfl⟩, ⟨_, rfl⟩, ⟨_, rfl⟩, ⟨_, rfl⟩, ⟨_, rfl⟩, ⟨_, rfl⟩, ⟨_, rfl⟩,
        ⟨_, rfl⟩, ⟨_, rfl⟩⟩

end VA
